import Mathlib

/-!
Verification development for the Family Cat Photos request handler
(`src/handlers/photos.py`).

The Python handler is shallowly embedded below.  Modelling conventions:

* Python `dict`s with string keys are modelled as association lists
  (`List (String × String)` or `List (String × Json)`); assignment keeps the
  position of an existing key and appends new keys, matching CPython
  insertion-ordered dicts.
* HTTP-gateway events are a structure mirroring the fields the handler reads.
  Bodies are modelled after transport decoding (the `isBase64Encoded` branch
  is a content-preserving decode performed by the runtime, so bodies appear
  already decoded).  The result of the external `email` multipart parser is
  carried on the event as an oracle field (`multipartForm`).
* The AWS clients (DynamoDB, S3) are modelled by an explicit `World`:
  the metadata table is a list of items, a conditional put fails with
  `ConditionalCheckFailedException` exactly when an item with the same
  (FamilyId, PhotoId) composite key is present; injected `ClientError`s model
  transport failures; presigned-URL issuance and `uuid4`/`datetime.now` are
  world-supplied values.
* `json.loads` is modelled by an executable recursive-descent parser
  (JSON numbers restricted to integers — no claim depends on floats);
  `json.dumps` by an executable serializer.
* Uncaught Python exceptions (e.g. subscripting a non-dict JSON payload)
  are modelled as `Except.error` outcomes of the handler.
-/

/-- Python `dict.get` on a string-keyed dict (first matching key). -/
def dictGet {α : Type} (d : List (String × α)) (k : String) : Option α :=
  match d with
  | [] => none
  | kv :: rest => if kv.1 == k then some kv.2 else dictGet rest k

/-- Python `d[k] = v`: replace the first binding of `k` in place, else append. -/
def dictSet {α : Type} (d : List (String × α)) (k : String) (v : α) : List (String × α) :=
  match d with
  | [] => [(k, v)]
  | kv :: rest => if kv.1 == k then (k, v) :: rest else kv :: dictSet rest k v

/-- Python `dict.update`: apply `dictSet` for each pair of `new` in order. -/
def dictUpdate {α : Type} (d : List (String × α)) (new : List (String × α)) : List (String × α) :=
  new.foldl (fun acc kv => dictSet acc kv.1 kv.2) d

/-- Insert only if the key is absent (used for "first value per key" maps). -/
def dictInsertNew {α : Type} (d : List (String × α)) (k : String) (v : α) : List (String × α) :=
  if (d.any (fun kv => kv.1 == k)) then d else d ++ [(k, v)]

/-- Python `str.startswith`. -/
def pyStartsWith (s pre : String) : Bool :=
  pre.data.isPrefixOf s.data

/-- Python `str.endswith`. -/
def pyEndsWith (s suf : String) : Bool :=
  suf.data.isSuffixOf s.data

/-- Python slicing `s[n:]`. -/
def pyDrop (s : String) (n : Nat) : String :=
  ⟨s.data.drop n⟩

/-- Python `s.rstrip("/")`: remove every trailing slash. -/
def pyRstripSlash (s : String) : String :=
  ⟨(s.data.reverse.dropWhile (fun c => c == '/')).reverse⟩

/-- Splitting a char list on every occurrence of `sep`, keeping empties. -/
def splitCharAux (sep : Char) : List Char → List Char → List (List Char)
  | [], acc => [acc.reverse]
  | c :: rest, acc =>
    if c == sep then acc.reverse :: splitCharAux sep rest []
    else splitCharAux sep rest (c :: acc)

/-- Python `s.split(sep)` for a one-character separator. -/
def pySplitChar (s : String) (sep : Char) : List String :=
  (splitCharAux sep s.data []).map (fun l => (⟨l⟩ : String))

/-- Python `str.strip()` (whitespace from both ends). -/
def pyStrip (s : String) : String :=
  ⟨((s.data.dropWhile Char.isWhitespace).reverse.dropWhile Char.isWhitespace).reverse⟩

/-- Python `str.lower()` (ASCII model). -/
def pyLower (s : String) : String :=
  ⟨s.data.map Char.toLower⟩

/-- Value of a hex digit, if any. -/
def hexVal (c : Char) : Option Nat :=
  if 48 ≤ c.toNat && c.toNat ≤ 57 then some (c.toNat - 48)
  else if 97 ≤ c.toNat && c.toNat ≤ 102 then some (c.toNat - 87)
  else if 65 ≤ c.toNat && c.toNat ≤ 70 then some (c.toNat - 55)
  else none

/-- Percent-decoding as in `urllib.parse.unquote` (byte = char model; malformed
escapes are kept verbatim). -/
def pctDecode : List Char → List Char
  | [] => []
  | '%' :: a :: b :: rest =>
    match hexVal a, hexVal b with
    | some ha, some hb => Char.ofNat (16 * ha + hb) :: pctDecode rest
    | _, _ => '%' :: pctDecode (a :: b :: rest)
  | c :: rest => c :: pctDecode rest

/-- Model of `urllib.parse.unquote`. -/
def urlUnquote (s : String) : String :=
  ⟨pctDecode s.data⟩

/-- Model of `urllib.parse.unquote_plus` (`+` becomes space, then percent-decode). -/
def urlUnquotePlus (s : String) : String :=
  ⟨pctDecode (s.data.map (fun c => if c == '+' then ' ' else c))⟩

/-- Upper-case hex digit for `0 ≤ n < 16`. -/
def hexDigitUpper (n : Nat) : Char :=
  if n < 10 then Char.ofNat (48 + n) else Char.ofNat (55 + n)

/-- Lower-case hex digit for `0 ≤ n < 16`. -/
def hexDigitLower (n : Nat) : Char :=
  if n < 10 then Char.ofNat (48 + n) else Char.ofNat (87 + n)

/-- Model of `urllib.parse.quote` with the default `safe="/"` (ASCII byte model). -/
def urlQuote (s : String) : String :=
  ⟨s.data.flatMap (fun c =>
    if c.isAlphanum || c == '_' || c == '.' || c == '-' || c == '~' || c == '/' then [c]
    else
      let n := c.toNat % 256
      ['%', hexDigitUpper (n / 16), hexDigitUpper (n % 16)])⟩

/-- Model of `html.escape` with `quote=True`. -/
def htmlEscape (s : String) : String :=
  ⟨s.data.flatMap (fun c =>
    if c == '&' then "&amp;".data
    else if c == '<' then "&lt;".data
    else if c == '>' then "&gt;".data
    else if c == '"' then "&quot;".data
    else if c == '\x27' then "&#x27;".data
    else [c])⟩

/-- Character of the base64 alphabet. -/
def b64Char (n : Nat) : Char :=
  "ABCDEFGHIJKLMNOPQRSTUVWXYZabcdefghijklmnopqrstuvwxyz0123456789+/".data.getD n 'A'

/-- Model of `base64.b64encode` over a byte list. -/
def base64Encode : List Nat → String
  | [] => ""
  | [a] =>
    ⟨[b64Char (a / 4), b64Char ((a % 4) * 16), '=', '=']⟩
  | [a, b] =>
    ⟨[b64Char (a / 4), b64Char ((a % 4) * 16 + b / 16), b64Char ((b % 16) * 4), '=']⟩
  | a :: b :: c :: rest =>
    (⟨[b64Char (a / 4), b64Char ((a % 4) * 16 + b / 16),
       b64Char ((b % 16) * 4 + c / 64), b64Char (c % 64)]⟩ : String) ++ base64Encode rest

/-- JSON values as produced by `json.loads` (numbers modelled as integers;
`Json.null` doubles as Python `None`). -/
inductive Json where
  | null
  | bool (b : Bool)
  | num (n : Int)
  | str (s : String)
  | arr (xs : List Json)
  | obj (kvs : List (String × Json))

/-- String escaping of `json.dumps` (default `ensure_ascii`; BMP model). -/
def jsonEscapeChar (c : Char) : List Char :=
  if c == '"' then ['\\', '"']
  else if c == '\\' then ['\\', '\\']
  else if c == '\n' then ['\\', 'n']
  else if c == '\t' then ['\\', 't']
  else if c == '\r' then ['\\', 'r']
  else if c.toNat == 8 then ['\\', 'b']
  else if c.toNat == 12 then ['\\', 'f']
  else if c.toNat < 32 || c.toNat > 126 then
    ['\\', 'u', hexDigitLower (c.toNat / 4096 % 16), hexDigitLower (c.toNat / 256 % 16),
     hexDigitLower (c.toNat / 16 % 16), hexDigitLower (c.toNat % 16)]
  else [c]

def jsonEscape (s : String) : String :=
  ⟨s.data.flatMap jsonEscapeChar⟩

mutual

/-- Model of `json.dumps` with the default separators. -/
def jsonDump : Json → String
  | .null => "null"
  | .bool true => "true"
  | .bool false => "false"
  | .num n => toString n
  | .str s => "\"" ++ jsonEscape s ++ "\""
  | .arr xs => "[" ++ jsonDumpList xs ++ "]"
  | .obj kvs => "\x7b" ++ jsonDumpObj kvs ++ "\x7d"

def jsonDumpList : List Json → String
  | [] => ""
  | [x] => jsonDump x
  | x :: y :: rest => jsonDump x ++ ", " ++ jsonDumpList (y :: rest)

def jsonDumpObj : List (String × Json) → String
  | [] => ""
  | [(k, v)] => "\"" ++ jsonEscape k ++ "\": " ++ jsonDump v
  | (k, v) :: kv :: rest =>
    "\"" ++ jsonEscape k ++ "\": " ++ jsonDump v ++ ", " ++ jsonDumpObj (kv :: rest)

end

/-- Python truthiness for values coming out of `json.loads`. -/
def jsonTruthy : Json → Bool
  | .null => false
  | .bool b => b
  | .num n => !(n == 0)
  | .str s => !(s == "")
  | .arr xs => !xs.isEmpty
  | .obj kvs => !kvs.isEmpty

/-- Lookup in a JSON object member list (Python dicts have unique keys). -/
def jsonLookup (kvs : List (String × Json)) (k : String) : Option Json :=
  dictGet kvs k

mutual

/-- Python `str()` applied to a decoded-JSON value. -/
def pyStr : Json → String
  | .null => "None"
  | .bool true => "True"
  | .bool false => "False"
  | .num n => toString n
  | .str s => s
  | .arr xs => "[" ++ pyReprList xs ++ "]"
  | .obj kvs => "\x7b" ++ pyReprObj kvs ++ "\x7d"

/-- Python `repr()` (approximate: strings single-quoted without escaping). -/
def pyRepr : Json → String
  | .null => "None"
  | .bool true => "True"
  | .bool false => "False"
  | .num n => toString n
  | .str s => "\x27" ++ s ++ "\x27"
  | .arr xs => "[" ++ pyReprList xs ++ "]"
  | .obj kvs => "\x7b" ++ pyReprObj kvs ++ "\x7d"

def pyReprList : List Json → String
  | [] => ""
  | [x] => pyRepr x
  | x :: y :: rest => pyRepr x ++ ", " ++ pyReprList (y :: rest)

def pyReprObj : List (String × Json) → String
  | [] => ""
  | [(k, v)] => "\x27" ++ k ++ "\x27: " ++ pyRepr v
  | (k, v) :: kv :: rest => "\x27" ++ k ++ "\x27: " ++ pyRepr v ++ ", " ++ pyReprObj (kv :: rest)

end

/-- JSON whitespace skipping. -/
def skipWs (cs : List Char) : List Char :=
  cs.dropWhile (fun c => c == ' ' || c == '\t' || c == '\n' || c == '\r')

/-- Parse the remainder of a JSON string literal (after the opening quote). -/
def parseJsonString : List Char → Option (String × List Char)
  | [] => none
  | '"' :: rest => some ("", rest)
  | '\\' :: 'u' :: a :: b :: c :: d :: rest =>
    match hexVal a, hexVal b, hexVal c, hexVal d with
    | some ha, some hb, some hc, some hd =>
      (parseJsonString rest).map (fun p =>
        (⟨Char.ofNat (4096 * ha + 256 * hb + 16 * hc + hd) :: p.1.data⟩, p.2))
    | _, _, _, _ => none
  | '\\' :: e :: rest =>
    let ch : Option Char :=
      if e == '"' then some '"'
      else if e == '\\' then some '\\'
      else if e == '/' then some '/'
      else if e == 'n' then some '\n'
      else if e == 't' then some '\t'
      else if e == 'r' then some '\r'
      else if e == 'b' then some (Char.ofNat 8)
      else if e == 'f' then some (Char.ofNat 12)
      else none
    match ch with
    | none => none
    | some ch => (parseJsonString rest).map (fun p => (⟨ch :: p.1.data⟩, p.2))
  | c :: rest =>
    if c.toNat < 32 then none
    else (parseJsonString rest).map (fun p => (⟨c :: p.1.data⟩, p.2))

def digitsToNat (ds : List Char) : Nat :=
  ds.foldl (fun acc c => acc * 10 + (c.toNat - 48)) 0

/-- Parse a JSON number (integer part only; floats are outside the model and
are rejected, as is a leading zero, mirroring `json.loads` strictness). -/
def parseJsonNum (cs : List Char) : Option (Json × List Char) :=
  let (neg, cs') := match cs with
    | '-' :: rest => (true, rest)
    | _ => (false, cs)
  let (ds, rest) := cs'.span Char.isDigit
  if ds.isEmpty then none
  else if ds.length > 1 && ds.headD '0' == '0' then none
  else
    match rest with
    | '.' :: _ => none
    | 'e' :: _ => none
    | 'E' :: _ => none
    | _ =>
      let n : Int := Int.ofNat (digitsToNat ds)
      some (.num (if neg then -n else n), rest)

mutual

def parseJsonValue : Nat → List Char → Option (Json × List Char)
  | 0, _ => none
  | fuel + 1, cs =>
    match cs with
    | 'n' :: 'u' :: 'l' :: 'l' :: rest => some (.null, rest)
    | 't' :: 'r' :: 'u' :: 'e' :: rest => some (.bool true, rest)
    | 'f' :: 'a' :: 'l' :: 's' :: 'e' :: rest => some (.bool false, rest)
    | '"' :: rest => (parseJsonString rest).map (fun p => (.str p.1, p.2))
    | '[' :: rest =>
      let rest := skipWs rest
      match rest with
      | ']' :: r => some (.arr [], r)
      | _ => parseJsonElems fuel rest []
    | '\x7b' :: rest =>
      let rest := skipWs rest
      match rest with
      | '\x7d' :: r => some (.obj [], r)
      | _ => parseJsonMembers fuel rest []
    | _ => parseJsonNum cs

def parseJsonElems : Nat → List Char → List Json → Option (Json × List Char)
  | 0, _, _ => none
  | fuel + 1, cs, acc =>
    match parseJsonValue fuel cs with
    | none => none
    | some (v, rest) =>
      match skipWs rest with
      | ',' :: r2 => parseJsonElems fuel (skipWs r2) (acc ++ [v])
      | ']' :: r2 => some (.arr (acc ++ [v]), r2)
      | _ => none

def parseJsonMembers : Nat → List Char → List (String × Json) → Option (Json × List Char)
  | 0, _, _ => none
  | fuel + 1, cs, acc =>
    match cs with
    | '"' :: kr =>
      match parseJsonString kr with
      | none => none
      | some (k, r) =>
        match skipWs r with
        | ':' :: r2 =>
          match parseJsonValue fuel (skipWs r2) with
          | none => none
          | some (v, r3) =>
            match skipWs r3 with
            | ',' :: r4 => parseJsonMembers fuel (skipWs r4) (acc ++ [(k, v)])
            | '\x7d' :: r4 => some (.obj (acc ++ [(k, v)]), r4)
            | _ => none
        | _ => none
    | _ => none

end

/-- Model of `json.loads` (executable model). -/
def jsonLoads (s : String) : Option Json :=
  match parseJsonValue (2 * s.length + 2) (skipWs s.data) with
  | some (j, rest) => if (skipWs rest).isEmpty then some j else none
  | none => none

/-- Uncaught Python exception outcomes surfaced by the handler model. -/
inductive PyExc where
  | typeError
  | attributeError
  | keyError
deriving DecidableEq

/-- Python `payload.get(k)`: `AttributeError` on a non-dict value; a missing
key and an explicit JSON `null` both come back as Python `None` (`Json.null`). -/
def pyGet (j : Json) (k : String) : Except PyExc Json :=
  match j with
  | .obj kvs => .ok ((jsonLookup kvs k).getD .null)
  | _ => .error .attributeError

/-- Python `payload.get(k, default)`. -/
def pyGetD (j : Json) (k : String) (default : Json) : Except PyExc Json :=
  match j with
  | .obj kvs => .ok ((jsonLookup kvs k).getD default)
  | _ => .error .attributeError

/-- Python `payload[k]` on a decoded-JSON value. -/
def pySubscript (j : Json) (k : String) : Except PyExc Json :=
  match j with
  | .obj kvs =>
    match jsonLookup kvs k with
    | some v => .ok v
    | none => .error .keyError
  | _ => .error .typeError

/-- Python `set(keys).issubset(payload)` for a decoded-JSON payload:
membership in dict keys / list elements / string characters; `TypeError`
on non-iterable values. -/
def jsonIssubset (keys : List String) (j : Json) : Except PyExc Bool :=
  match j with
  | .obj kvs => .ok (keys.all (fun k => kvs.any (fun kv => kv.1 == k)))
  | .arr xs => .ok (keys.all (fun k => xs.any (fun x =>
      match x with
      | .str s => s == k
      | _ => false)))
  | .str s => .ok (keys.all (fun k => s.data.any (fun c => String.mk [c] == k)))
  | _ => .error .typeError

/-- A file part of a parsed multipart form (`{filename, content_type, data}`). -/
structure FilePart where
  filename : String
  content_type : String
  data : List Nat
deriving DecidableEq

/-- An HTTP-gateway event, restricted to the fields the handler reads.
`method` is `requestContext.http.method` (empty when missing), `stage` is
`requestContext.stage`.  `body` is the transport-decoded body text.
`multipartForm` is the oracle for the external `email` multipart parser:
the `(fields, files)` it would produce for this body. -/
structure Event where
  method : String
  stage : Option String
  rawPath : String
  headers : List (String × String)
  cookies : Option (List String)
  queryStringParameters : Option (List (String × Option String))
  rawQueryString : Option String
  body : Option String
  multipartForm : Option (List (String × String) × List (String × FilePart))

/-- A row of the DynamoDB photo table.  `FamilyId`, `PhotoId`, `ObjectKey` and
`UploadedAt` are always written; the four optional attributes are omitted from
storage when absent. -/
structure DbItem where
  familyId : String
  photoId : String
  objectKey : String
  uploadedAt : String
  title : Option String
  description : Option String
  contentType : Option String
  takenAt : Option String
deriving DecidableEq

/-- One element of the `_query_photos` result: a Python dict whose six keys are
always present, the optional ones possibly bound to `None`. -/
structure QueryItem where
  photoId : String
  objectKey : String
  title : Option String
  description : Option String
  uploadedAt : Option String
  contentType : Option String
deriving DecidableEq

/-- The state and behavior of the external services for one invocation:
the DynamoDB table contents, injected `ClientError`s (`dynamoFail` is the
error code raised by any DynamoDB call, `s3Fail` makes S3 calls raise),
presigned-URL issuance, and the `uuid4`/`datetime.now` draws. -/
structure World where
  table : List DbItem
  dynamoFail : Option String
  s3Fail : Bool
  presignPut : String → String
  presignGet : String → String
  freshUuid : String
  now : String

def World.withTable (w : World) (t : List DbItem) : World :=
  ⟨t, w.dynamoFail, w.s3Fail, w.presignPut, w.presignGet, w.freshUuid, w.now⟩

/-- The `body` argument of `_build_response` (`Any` in the source: a dict for
JSON responses, a string for text/HTML, bytes, or `None`). -/
inductive RBody where
  | noneV
  | json (j : Json)
  | text (s : String)
  | bytes (b : List Nat)

/-- An API Gateway response object. -/
structure Response where
  statusCode : Nat
  headers : List (String × String)
  body : String
  cookies : Option (List String)

/-- Model of `body or {}` as used in the JSON branch of `_build_response`.
(A `bytes` body under a JSON content type would raise in `json.dumps`;
no call site does this, modelled as `null`.) -/
def jsonBodyOrEmpty : RBody → Json
  | .noneV => .obj []
  | .json j => if jsonTruthy j then j else .obj []
  | .text s => if s == "" then .obj [] else .str s
  | .bytes _ => .null

def HSTS_VALUE : String := "max-age=63072000; includeSubDomains; preload"

def HTML_CONTENT_TYPE : String := "text/html; charset=utf-8"

def UPLOAD_URL_TTL_SECONDS : Nat := 15 * 60

/-- Model of `_build_response(status_code, body, *, headers, content_type, cookies)`. -/
def build_response (status_code : Nat) (body : RBody)
    (headers : Option (List (String × String))) (content_type : String)
    (cookies : Option (List String)) : Response :=
  let response_headers := [("Strict-Transport-Security", HSTS_VALUE)]
  let response_headers :=
    match headers with
    | some hs => dictUpdate response_headers hs
    | none => response_headers
  let response_headers :=
    if content_type == "" then response_headers
    else dictSet response_headers "Content-Type" content_type
  let body_text :=
    if content_type == "application/json" then jsonDump (jsonBodyOrEmpty body)
    else
      match body with
      | .bytes b => base64Encode b
      | .text s => s
      | .noneV => ""
      | .json j => jsonDump j  -- dead: no call site passes a dict with a non-JSON content type
  ⟨status_code, response_headers, body_text,
    match cookies with
    | some cs => if cs.isEmpty then none else some cs
    | none => none⟩

/-- Model of `_content_type_to_extension` on an actual string argument. -/
def content_type_to_extension (content_type : String) : String :=
  if content_type == "" then ""
  else
    let ct := pyLower content_type
    if ct == "image/jpeg" then ".jpg"
    else if ct == "image/png" then ".png"
    else if ct == "image/gif" then ".gif"
    else if ct == "image/heic" then ".heic"
    else if ct == "image/heif" then ".heif"
    else ""

/-- Model of `_content_type_to_extension` applied to a decoded-JSON value (as in
`_create_presigned_upload`): falsy values yield `""`, a truthy non-string
raises `AttributeError` at `.lower()`. -/
def content_type_to_extension_py (content_type : Json) : Except PyExc String :=
  if !jsonTruthy content_type then .ok ""
  else
    match content_type with
    | .str s => .ok (content_type_to_extension s)
    | _ => .error .attributeError

/-- Model of `urllib.parse.parse_qs` plus "first value per key", as used for raw query
strings and url-encoded bodies (`keep_blank_values=False`). -/
def parse_qs_first (raw : String) : List (String × String) :=
  ((pySplitChar raw '&').foldl (fun acc pair =>
    if pair == "" then acc
    else
      let (pre, post) := pair.data.span (fun c => !(c == '='))
      match post with
      | [] => acc
      | _ :: rest =>
        if rest.isEmpty then acc
        else acc ++ [(urlUnquotePlus ⟨pre⟩, urlUnquotePlus ⟨rest⟩)]) [])
  |>.foldl (fun acc kv => dictInsertNew acc kv.1 kv.2) []

/-- Model of `_parse_query_string`. -/
def parse_query_string (ev : Event) : List (String × String) :=
  let fallback : List (String × String) :=
    match ev.rawQueryString with
    | some raw => if raw == "" then [] else parse_qs_first raw
    | none => []
  match ev.queryStringParameters with
  | some params =>
    if params.isEmpty then fallback
    else params.foldl (fun acc kv =>
      match kv.2 with
      | some v => acc ++ [(kv.1, v)]
      | none => acc) []
  | none => fallback

/-- Names that `http.cookies` treats as cookie attributes, not morsels. -/
def cookieReservedNames : List String :=
  ["expires", "path", "comment", "domain", "max-age", "secure", "httponly",
   "version", "samesite"]

/-- One raw cookie string parsed `SimpleCookie`-style (well-formed-input model:
semicolon-separated `name=value` pairs; attribute names and malformed entries
are skipped). -/
def parseCookieText (s : String) : List (String × String) :=
  ((pySplitChar s ';').foldl (fun acc part =>
    let part := pyStrip part
    let (pre, post) := part.data.span (fun c => !(c == '='))
    match post with
    | [] => acc
    | _ :: rest =>
      let key : String := ⟨pre⟩
      if key == "" then acc
      else if cookieReservedNames.contains (pyLower key) then acc
      else acc ++ [(key, (⟨rest⟩ : String))]) [])

/-- Model of `_parse_cookies`. -/
def parse_cookies (ev : Event) : List (String × String) :=
  let header := dictGet ev.headers "cookie" <|> dictGet ev.headers "Cookie"
  let cookie_list := (ev.cookies.getD []) ++ (match header with
    | some h => [h]
    | none => [])
  cookie_list.foldl (fun jar raw =>
    (parseCookieText raw).foldl (fun jar kv => dictSet jar kv.1 kv.2) jar) []

/-- Model of `_parse_form_data`: url-encoded bodies are parsed directly; multipart
bodies defer to the `multipartForm` oracle on the event (the external `email`
parser); anything else yields empty fields and files. -/
def parse_form_data (ev : Event) :
    List (String × String) × List (String × FilePart) :=
  let content_type := ((dictGet ev.headers "content-type" <|>
    dictGet ev.headers "Content-Type").getD "")
  match ev.body with
  | none => ([], [])
  | some body =>
    if pyStartsWith content_type "application/x-www-form-urlencoded" then
      (parse_qs_first body, [])
    else if pyStartsWith content_type "multipart/form-data" then
      ev.multipartForm.getD ([], [])
    else ([], [])

/-- Python `a or b` over optional strings (empty string is falsy). -/
def pyOrOpt (a b : Option String) : Option String :=
  match a with
  | some s => if s == "" then b else some s
  | none => b

/-- Truthiness of an optional string. -/
def optTruthy (o : Option String) : Bool :=
  match o with
  | some s => !(s == "")
  | none => false

/-- Model of `_family_id_from_event(event, form_fields)`. -/
def family_id_from_event (ev : Event)
    (form_fields : Option (List (String × String))) : Option String :=
  let family_id := pyOrOpt (dictGet ev.headers "x-family-id")
    (dictGet ev.headers "X-Family-Id")
  if optTruthy family_id then family_id
  else
    let cookies := parse_cookies ev
    if optTruthy (dictGet cookies "family_id") then dictGet cookies "family_id"
    else
      let query := parse_query_string ev
      if optTruthy (dictGet query "family_id") then dictGet query "family_id"
      else
        match form_fields with
        | some ff =>
          if !ff.isEmpty && optTruthy (dictGet ff "family_id") then
            dictGet ff "family_id"
          else none
        | none => none

/-- Model of `_validate_family_id` (raising `PermissionError` is the `.error` case);
`allowed` is the configured `ALLOWED_FAMILY_IDS` set. -/
def validate_family_id (allowed : List String) (family_id : Option String) :
    Except String String :=
  match family_id with
  | none => .error "Missing family identifier"
  | some fid =>
    if fid == "" then .error "Missing family identifier"
    else if !allowed.isEmpty && !allowed.contains fid then
      .error "Family id not authorized"
    else .ok fid

/-- Model of `_extract_family_id`. -/
def extract_family_id (allowed : List String) (ev : Event)
    (form_fields : Option (List (String × String))) : Except String String :=
  validate_family_id allowed (family_id_from_event ev form_fields)

/-- The trailing `path.rstrip("/") or "/"` of the normalization in `handler`. -/
def finalize_path (path : String) : String :=
  let r := pyRstripSlash path
  if r == "" then "/" else r

/-- The stage-prefix stripping of the handler (`if stage and stage != "$default"`).
Python drops `len("/" + stage)` characters (keeping the following slash); here
the retained slash is re-prepended after dropping the prefix including its
slash — same result. -/
def strip_stage (stage : Option String) (path : String) : String :=
  match stage with
  | some s =>
    if !(s == "") && !(s == "$default") then
      let stagePre := "/" ++ s
      if path == stagePre then "/"
      else if pyStartsWith path (stagePre ++ "/") then
        let t := pyDrop path (stagePre ++ "/").length
        if t == "" then "/" else "/" ++ t
      else path
    else path
  | none => path

/-- The path normalization performed at the top of `handler`: `rawPath or "/"`,
stage-prefix stripping for a non-default stage, then `rstrip("/") or "/"`. -/
def normalize_path (stage : Option String) (rawPath : String) : String :=
  finalize_path (strip_stage stage (if rawPath == "" then "/" else rawPath))

/-- Python `None`-or-string optionals as passed to `_persist_photo_metadata`
(`None` becomes JSON/Python `null`). -/
def optJsonStr (o : Option String) : Json :=
  match o with
  | some s => .str s
  | none => .null

/-- Python `x or default` for an optional string result (empty is falsy). -/
def pyOrStr (o : Option String) (d : String) : String :=
  match o with
  | some s => if s == "" then d else s
  | none => d

/-- Model of `s.strip() or None` idiom. -/
def optNonempty (s : String) : Option String :=
  if s == "" then none else some s

/-- Is an item with this (FamilyId, PhotoId) composite key in the table? -/
def keyPresent (t : List DbItem) (fid pid : String) : Bool :=
  t.any (fun it => it.familyId == fid && it.photoId == pid)

/-- DynamoDB `put_item` with `ConditionExpression="attribute_not_exists(PhotoId)"`:
the condition is evaluated against the existing item with the same composite
key, so the put fails with `ConditionalCheckFailedException` exactly when such
an item exists; on any error the table is unchanged. -/
def dynamo_put_if_absent (w : World) (item : DbItem) :
    Except String Unit × List DbItem :=
  match w.dynamoFail with
  | some code => (.error code, w.table)
  | none =>
    if keyPresent w.table item.familyId item.photoId then
      (.error "ConditionalCheckFailedException", w.table)
    else (.ok (), w.table ++ [item])

/-- DynamoDB `get_item` by composite key (`.get("Item")`). -/
def dynamo_get_item (w : World) (fid pid : String) : Except String (Option DbItem) :=
  match w.dynamoFail with
  | some code => .error code
  | none => .ok (w.table.find? (fun it => it.familyId == fid && it.photoId == pid))

def insertDescByPhotoId (x : DbItem) : List DbItem → List DbItem
  | [] => [x]
  | y :: ys =>
    if y.photoId ≤ x.photoId then x :: y :: ys else y :: insertDescByPhotoId x ys

/-- DynamoDB returns a `query` with `ScanIndexForward=False` in descending
sort-key order, independent of insertion order. -/
def sortDescByPhotoId (l : List DbItem) : List DbItem :=
  l.foldr insertDescByPhotoId []

/-- Model of `_query_photos`: all items of the partition, newest sort key first, each
mapped to a dict whose optional values may be `None`. -/
def query_photos (fid : String) (w : World) : Except String (List QueryItem) :=
  match w.dynamoFail with
  | some code => .error code
  | none =>
    .ok ((sortDescByPhotoId (w.table.filter (fun it => it.familyId == fid))).map
      (fun it => ⟨it.photoId, it.objectKey, it.title, it.description,
        it.uploadedAt, it.contentType⟩))

/-- The JSON rendering of one `_query_photos` dict: all six keys present,
`None` values serialized as `null`; no `takenAt` key exists. -/
def queryItemToJson (it : QueryItem) : Json :=
  let optJ : Option String → Json := fun o =>
    match o with
    | some s => .str s
    | none => .null
  .obj [("photoId", .str it.photoId), ("objectKey", .str it.objectKey),
    ("title", optJ it.title), ("description", optJ it.description),
    ("uploadedAt", optJ it.uploadedAt), ("contentType", optJ it.contentType)]

/-- Model of `_list_photos`. -/
def list_photos (fid : String) (w : World) : Response :=
  match query_photos fid w with
  | .error _ =>
    build_response 500 (.json (.obj [("message", .str "Unable to list photos")]))
      none "application/json" none
  | .ok items =>
    build_response 200 (.json (.obj [("items", .arr (items.map queryItemToJson))]))
      none "application/json" none

/-- Model of `_extract_json_body` (the `ValueError` is the `.error` case). -/
def extract_json_body (ev : Event) : Except String Json :=
  match ev.body with
  | none => .ok (.obj [])
  | some raw =>
    if raw == "" then .ok (.obj [])
    else
      match jsonLoads raw with
      | some j => .ok j
      | none => .error "Invalid JSON body"

/-- Model of `_persist_photo_metadata`: builds the item (optional attributes only when
truthy, stringified), then the conditional insert-once put.  Returns the
`{"photoId", "objectKey"}` result dict and the resulting table. -/
def persist_photo_metadata (family_id photo_id object_key : String)
    (title description content_type taken_at : Json) (w : World) :
    Except String (String × String) × List DbItem :=
  let uploaded_at := w.now
  let item : DbItem := ⟨family_id, photo_id, object_key, uploaded_at,
    if jsonTruthy title then some (pyStr title) else none,
    if jsonTruthy description then some (pyStr description) else none,
    if jsonTruthy content_type then some (pyStr content_type) else none,
    if jsonTruthy taken_at then some (pyStr taken_at) else none⟩
  match dynamo_put_if_absent w item with
  | (.error code, t) => (.error code, t)
  | (.ok _, t) => (.ok (photo_id, object_key), t)

/-- Model of `_record_photo_metadata`.  (The `except PermissionError` in the source around
the persist call is dead: `_persist_photo_metadata` cannot raise it.) -/
def record_photo_metadata (family_id : String) (ev : Event) (w : World) :
    Except PyExc (Response × List DbItem) :=
  match extract_json_body ev with
  | .error msg =>
    .ok (build_response 400 (.json (.obj [("message", .str msg)]))
      none "application/json" none, w.table)
  | .ok payload =>
    match jsonIssubset ["photoId", "objectKey"] payload with
    | .error e => .error e
    | .ok false =>
      .ok (build_response 400 (.json (.obj [("message", .str "Missing required fields"),
        ("required", .arr [.str "objectKey", .str "photoId"])]))
        none "application/json" none, w.table)
    | .ok true =>
      match pySubscript payload "photoId" with
      | .error e => .error e
      | .ok pidJ =>
        match pySubscript payload "objectKey" with
        | .error e => .error e
        | .ok okJ =>
          match pyGet payload "title" with
          | .error e => .error e
          | .ok titleJ =>
            match pyGet payload "description" with
            | .error e => .error e
            | .ok descJ =>
              match pyGet payload "contentType" with
              | .error e => .error e
              | .ok ctJ =>
                match pyGet payload "takenAt" with
                | .error e => .error e
                | .ok taJ =>
                  match persist_photo_metadata family_id (pyStr pidJ) (pyStr okJ)
                    titleJ descJ ctJ taJ w with
                  | (.error code, t) =>
                    if code == "ConditionalCheckFailedException" then
                      .ok (build_response 409 (.json (.obj [("message", .str "Photo already recorded")]))
                        none "application/json" none, t)
                    else
                      .ok (build_response 500 (.json (.obj [("message", .str "Unable to save metadata")]))
                        none "application/json" none, t)
                  | (.ok result, t) =>
                    .ok (build_response 201 (.json (.obj [("photoId", .str result.1),
                      ("objectKey", .str result.2)])) none "application/json" none, t)

/-- Model of `_create_presigned_upload`. -/
def create_presigned_upload (family_id : String) (ev : Event) (w : World) :
    Except PyExc Response :=
  match extract_json_body ev with
  | .error msg =>
    .ok (build_response 400 (.json (.obj [("message", .str msg)]))
      none "application/json" none)
  | .ok payload =>
    match pyGetD payload "contentType" (.str "image/jpeg") with
    | .error e => .error e
    | .ok content_type =>
      match pyGet payload "title" with
      | .error e => .error e
      | .ok title =>
        match content_type_to_extension_py content_type with
        | .error e => .error e
        | .ok extension =>
          let photo_id := w.freshUuid
          let object_key := family_id ++ "/" ++ photo_id ++ extension
          if w.s3Fail then
            .ok (build_response 500 (.json (.obj [("message", .str "Unable to create upload URL")]))
              none "application/json" none)
          else
            .ok (build_response 201 (.json (.obj [("photoId", .str photo_id),
              ("objectKey", .str object_key),
              ("uploadUrl", .str (w.presignPut object_key)),
              ("title", title), ("contentType", content_type),
              ("expiresInSeconds", .num (UPLOAD_URL_TTL_SECONDS : Int))]))
              none "application/json" none)

/-- Model of `_cookie_attributes`. -/
def cookie_attributes (ev : Event) : String :=
  let proto := pyOrStr (pyOrOpt (dictGet ev.headers "x-forwarded-proto")
    (dictGet ev.headers "X-Forwarded-Proto")) "http"
  let attrs := "Path=/; HttpOnly; SameSite=Lax"
  if pyLower proto == "https" then attrs ++ "; Secure" else attrs

/-- One gallery `<figure>` of `_render_home_html`. -/
def renderGalleryItem (item : QueryItem) : String :=
  let title := htmlEscape (pyOrStr item.title "Untitled cat photo")
  let description := htmlEscape (pyOrStr item.description "")
  let uploaded_at := htmlEscape (pyOrStr item.uploadedAt "")
  let content_url := "/photos/" ++ urlQuote item.photoId ++ "/content"
  "<figure>\n  <img src=\"" ++ content_url ++ "\" alt=\"" ++ title ++
    "\" loading=\"lazy\" referrerpolicy=\"no-referrer\">\n  <figcaption>\n    <strong>" ++
    title ++ "</strong><br>\n    <small>Uploaded at " ++ uploaded_at ++
    "</small><br>\n    <span>" ++ description ++ "</span>\n  </figcaption>\n</figure>"

/-- The `<style>` block of the page template (`{{`/`}}` unescaped). -/
def pageStyle : String :=
  "body \x7b font-family: system-ui, sans-serif; margin: 0; padding: 0; background: #f7f7f7; color: #222; \x7d\n" ++
  "header \x7b background: #3f51b5; color: #fff; padding: 1.5rem; text-align: center; \x7d\n" ++
  "main \x7b max-width: 960px; margin: 2rem auto; padding: 0 1rem; \x7d\n" ++
  ".panel \x7b background: #fff; padding: 1.5rem; border-radius: 0.75rem; box-shadow: 0 8px 24px rgba(0,0,0,0.08); margin-bottom: 1.5rem; \x7d\n" ++
  "label \x7b display: block; margin-bottom: 0.75rem; font-weight: 600; \x7d\n" ++
  "input[type=\"text\"], input[type=\"datetime-local\"], input[type=\"file\"], textarea \x7b width: 100%; padding: 0.5rem; margin-top: 0.35rem; border-radius: 0.5rem; border: 1px solid #ccc; \x7d\n" ++
  "button \x7b background: #3f51b5; color: #fff; border: none; border-radius: 0.5rem; padding: 0.75rem 1.5rem; cursor: pointer; \x7d\n" ++
  "button:hover \x7b background: #303f9f; \x7d\n" ++
  ".gallery \x7b display: grid; grid-template-columns: repeat(auto-fit, minmax(220px, 1fr)); gap: 1.5rem; \x7d\n" ++
  "figure \x7b margin: 0; background: #fafafa; padding: 1rem; border-radius: 0.75rem; box-shadow: inset 0 0 0 1px rgba(0,0,0,0.05); \x7d\n" ++
  "figure img \x7b width: 100%; height: auto; border-radius: 0.5rem; object-fit: cover; \x7d\n" ++
  "figcaption \x7b margin-top: 0.75rem; \x7d\n" ++
  ".alert \x7b padding: 0.75rem 1rem; border-radius: 0.5rem; margin-bottom: 1rem; \x7d\n" ++
  ".alert-success \x7b background: #e8f5e9; color: #256029; \x7d\n" ++
  ".alert-error \x7b background: #ffebee; color: #c62828; \x7d\n" ++
  ".welcome \x7b margin-bottom: 1rem; \x7d\n" ++
  ".empty \x7b color: #666; \x7d"

/-- The outer page template of `_render_home_html`. -/
def renderPage (body : String) : String :=
  "<!DOCTYPE html>\n<html lang=\"en\">\n  <head>\n    <meta charset=\"utf-8\">\n" ++
  "    <meta name=\"viewport\" content=\"width=device-width, initial-scale=1\">\n" ++
  "    <title>Family Cat Photos</title>\n    <style>\n" ++ pageStyle ++
  "\n    </style>\n  </head>\n  <body>\n    <header>\n      <h1>Family Cat Photos</h1>\n" ++
  "      <p>Private space to share your favorite feline moments.</p>\n    </header>\n    " ++
  body ++ "\n  </body>\n</html>"

/-- The unauthenticated (login-form) `<main>` of `_render_home_html`. -/
def renderLoginBody (alerts : String) : String :=
  "<main><section class=\"panel\">" ++ alerts ++
  "<h2>Sign in to see your family cats</h2><form method=\"POST\" action=\"/session\">" ++
  "<label>Family identifier <input type=\"text\" name=\"family_id\" required autofocus></label>" ++
  "<button type=\"submit\">Continue</button></form></section></main>"

/-- The authenticated `<main>` of `_render_home_html`. -/
def renderAuthedBody (fid alerts : String) (photos : List QueryItem) : String :=
  let welcome := "<p class=\"welcome\">Viewing photos for <strong>" ++ htmlEscape fid ++
    "</strong></p>"
  let logout_form := "<form method=\"POST\" action=\"/session/logout\">" ++
    "<button type=\"submit\">Sign out</button></form>"
  let upload_form := "<section class=\"panel\"><h2>Upload a new cat photo</h2>" ++
    "<form method=\"POST\" action=\"/photos/form-upload\" enctype=\"multipart/form-data\">" ++
    "<input type=\"hidden\" name=\"family_id\" value=\"" ++ htmlEscape fid ++ "\">" ++
    "<label>Photo file <input type=\"file\" name=\"photo\" accept=\"image/*\" required></label>" ++
    "<label>Title <input type=\"text\" name=\"title\" maxlength=\"120\"></label>" ++
    "<label>Description <textarea name=\"description\" rows=\"3\" maxlength=\"500\"></textarea></label>" ++
    "<label>Taken at (optional) <input type=\"datetime-local\" name=\"taken_at\"></label>" ++
    "<button type=\"submit\">Upload photo</button></form></section>"
  let gallery :=
    if !photos.isEmpty then
      "<section class=\"gallery\">" ++ String.join (photos.map renderGalleryItem) ++ "</section>"
    else "<p class=\"empty\">No cat photos yet. Upload your first one!</p>"
  "<main>" ++ alerts ++ welcome ++ logout_form ++ upload_form ++
  "<section class=\"panel\"><h2>Your photos</h2>" ++ gallery ++ "</section></main>"

/-- Model of `_render_home_html` (the whitespace/indentation of the Python template
literals is not reproduced exactly; tag structure, text, attributes and all
interpolations are). -/
def render_home_html (family_id : Option String) (message : Option String)
    (error : Option String) (photos : List QueryItem) : String :=
  let alerts :=
    (match message with
     | some m => if m == "" then "" else "<div class=\"alert alert-success\">" ++ m ++ "</div>"
     | none => "") ++
    (match error with
     | some e => if e == "" then "" else "<div class=\"alert alert-error\">" ++ e ++ "</div>"
     | none => "")
  let body :=
    match family_id with
    | some fid =>
      if fid == "" then renderLoginBody alerts
      else renderAuthedBody fid alerts photos
    | none => renderLoginBody alerts
  renderPage body

/-- Model of `_handle_session`. -/
def handle_session (allowed : List String) (ev : Event) : Response :=
  let form_fields := (parse_form_data ev).1
  let family_id := pyStrip ((dictGet form_fields "family_id").getD "")
  match validate_family_id allowed (some family_id) with
  | .error msg =>
    build_response 403 (.text (render_home_html none none (some msg) []))
      none HTML_CONTENT_TYPE none
  | .ok valid_family =>
    let cookie_value := "family_id=" ++ urlQuote valid_family ++ "; " ++ cookie_attributes ev
    build_response 303 (.text "") (some [("Location", "/?status=welcome")])
      "text/plain" (some [cookie_value])

/-- Model of `_handle_logout`. -/
def handle_logout (ev : Event) : Response :=
  let expires := "Thu, 01 Jan 1970 00:00:00 GMT"
  let cookie_value := "family_id=deleted; " ++ cookie_attributes ev ++
    "; Expires=" ++ expires ++ "; Max-Age=0"
  build_response 303 (.text "") (some [("Location", "/?status=goodbye")])
    "text/plain" (some [cookie_value])

/-- Model of `_handle_home`. -/
def handle_home (ev : Event) (w : World) : Response :=
  let query := parse_query_string ev
  let status := dictGet query "status"
  let message : Option String :=
    if status == some "welcome" then
      match family_id_from_event ev none with
      | some fid => if fid == "" then none else some ("Signed in as " ++ htmlEscape fid)
      | none => none
    else if status == some "uploaded" then some "Photo uploaded successfully"
    else if status == some "goodbye" then some "Signed out"
    else if optTruthy status then some (htmlEscape (status.getD ""))
    else none
  let error :=
    match dictGet query "error" with
    | some e => if e == "" then some e else some (htmlEscape e)
    | none => none
  let family_id := family_id_from_event ev none
  let loaded : List QueryItem × Option String :=
    if optTruthy family_id then
      match query_photos (family_id.getD "") w with
      | .ok ps => (ps, none)
      | .error _ => ([], some "Unable to load photos right now.")
    else ([], none)
  let body := render_home_html family_id message (pyOrOpt error loaded.2) loaded.1
  build_response 200 (.text body) none HTML_CONTENT_TYPE none

/-- Model of `_handle_form_photo_upload`. -/
def handle_form_photo_upload (allowed : List String) (ev : Event) (w : World) :
    Response × List DbItem :=
  let parsed := parse_form_data ev
  let form_fields := parsed.1
  let files := parsed.2
  match extract_family_id allowed ev (some form_fields) with
  | .error msg =>
    (build_response 403 (.text (render_home_html none none (some msg) []))
      none HTML_CONTENT_TYPE none, w.table)
  | .ok family_id =>
    let noFile : Response :=
      build_response 400 (.text (render_home_html (some family_id) none
        (some "Please choose an image to upload") [])) none HTML_CONTENT_TYPE none
    match dictGet files "photo" with
    | none => (noFile, w.table)
    | some file_field =>
      if file_field.data.isEmpty then (noFile, w.table)
      else
        let title := optNonempty (pyStrip ((dictGet form_fields "title").getD ""))
        let description := optNonempty (pyStrip ((dictGet form_fields "description").getD ""))
        let taken_at := optNonempty (pyStrip ((dictGet form_fields "taken_at").getD ""))
        let content_type :=
          if file_field.content_type == "" then "image/jpeg" else file_field.content_type
        let extension0 := content_type_to_extension content_type
        let extension :=
          if extension0 == "" then
            let e := content_type_to_extension "image/jpeg"
            if e == "" then ".jpg" else e
          else extension0
        let photo_id := w.freshUuid
        let object_key := family_id ++ "/" ++ photo_id ++ extension
        if w.s3Fail then
          (build_response 500 (.text (render_home_html (some family_id) none
            (some "Could not store the photo. Please try again.") []))
            none HTML_CONTENT_TYPE none, w.table)
        else
          match persist_photo_metadata family_id photo_id object_key
            (optJsonStr title) (optJsonStr description) (.str content_type)
            (optJsonStr taken_at) w with
          | (.error _, t) =>
            (build_response 500 (.text (render_home_html (some family_id) none
              (some "Unable to save photo details.") []))
              none HTML_CONTENT_TYPE none, t)
          | (.ok _, t) =>
            (build_response 303 (.text "") (some [("Location", "/?status=uploaded")])
              "text/plain" none, t)

/-- Model of `_handle_photo_content`. -/
def handle_photo_content (allowed : List String) (ev : Event) (path : String)
    (w : World) : Response :=
  let segments := (pySplitChar path '/').filter (fun s => !(s == ""))
  if segments.length < 3 then
    build_response 404 (.json (.obj [("message", .str "Not Found")]))
      none "application/json" none
  else
    let photo_id := urlUnquote (segments.getD 1 "")
    match extract_family_id allowed ev none with
    | .error _ =>
      build_response 302 (.text "") (some [("Location", "/")]) "text/plain" none
    | .ok family_id =>
      match dynamo_get_item w family_id photo_id with
      | .error _ =>
        build_response 500 (.json (.obj [("message", .str "Unable to fetch photo")]))
          none "application/json" none
      | .ok none =>
        build_response 404 (.json (.obj [("message", .str "Photo not found")]))
          none "application/json" none
      | .ok (some item) =>
        let object_key := item.objectKey
        if object_key == "" then
          build_response 404 (.json (.obj [("message", .str "Photo not found")]))
            none "application/json" none
        else if w.s3Fail then
          build_response 500 (.json (.obj [("message", .str "Unable to fetch photo")]))
            none "application/json" none
        else
          build_response 302 (.text "")
            (some [("Location", w.presignGet object_key),
              ("Cache-Control", "private, max-age=30")]) "text/plain" none

/-- The tail of `handler` after a successful `_extract_family_id`. -/
def authed_routes (family_id method path : String) (ev : Event) (w : World) :
    Except PyExc (Response × List DbItem) :=
  if method == "GET" && path == "/photos" then .ok (list_photos family_id w, w.table)
  else if method == "POST" && path == "/photos/upload-url" then
    match create_presigned_upload family_id ev w with
    | .error e => .error e
    | .ok r => .ok (r, w.table)
  else if method == "POST" && path == "/photos" then record_photo_metadata family_id ev w
  else
    .ok (build_response 404 (.json (.obj [("message", .str "Not Found")]))
      none "application/json" none, w.table)

/-- Model of `handler(event, context)`: path normalization and dispatch. -/
def handler (allowed : List String) (ev : Event) (w : World) :
    Except PyExc (Response × List DbItem) :=
  let method := ev.method
  let path := normalize_path ev.stage ev.rawPath
  if method == "GET" && path == "/" then .ok (handle_home ev w, w.table)
  else if method == "POST" && path == "/session" then .ok (handle_session allowed ev, w.table)
  else if method == "POST" && path == "/session/logout" then .ok (handle_logout ev, w.table)
  else if method == "POST" && path == "/photos/form-upload" then
    .ok (handle_form_photo_upload allowed ev w)
  else if method == "GET" && pyStartsWith path "/photos/" && pyEndsWith path "/content" then
    .ok (handle_photo_content allowed ev path w, w.table)
  else if method == "GET" && path == "/health" then
    .ok (build_response 200 (.json (.obj [("status", .str "ok")]))
      none "application/json" none, w.table)
  else
    match extract_family_id allowed ev none with
    | .error msg =>
      .ok (build_response 403 (.json (.obj [("message", .str msg)]))
        none "application/json" none, w.table)
    | .ok family_id => authed_routes family_id method path ev w

/-- The three routes dispatched only after a successful hard
`_extract_family_id`. -/
def hard_auth_route (method path : String) : Bool :=
  (method == "GET" && path == "/photos") ||
  (method == "POST" && (path == "/photos/upload-url" || path == "/photos"))

/-- Keep an optional string only when non-empty. -/
def nonemptyOpt (o : Option String) : Option String :=
  match o with
  | some s => if s == "" then none else some s
  | none => none

/-- Family-identifier resolution as the (amended) spec words it: an ordered
list of extractors — header (tried under the two literal spellings
`x-family-id` then `X-Family-Id`), cookie `family_id`, query `family_id`,
then the `family_id` field of supplied, non-empty form fields — each reduced
to its first non-empty value.  Compared against `family_id_from_event`. -/
def resolve_family_id_spec (ev : Event)
    (form_fields : Option (List (String × String))) : Option String :=
  match nonemptyOpt (pyOrOpt (dictGet ev.headers "x-family-id")
    (dictGet ev.headers "X-Family-Id")) with
  | some v => some v
  | none =>
    match nonemptyOpt (dictGet (parse_cookies ev) "family_id") with
    | some v => some v
    | none =>
      match nonemptyOpt (dictGet (parse_query_string ev) "family_id") with
      | some v => some v
      | none =>
        match form_fields with
        | some ff => if ff.isEmpty then none else nonemptyOpt (dictGet ff "family_id")
        | none => none

/-- The member list of a JSON object (else empty). -/
def objFields : Json → List (String × Json)
  | .obj kvs => kvs
  | _ => []

/-- The stored item a `_persist_photo_metadata` call builds. -/
def persistedItem (family_id photo_id object_key : String)
    (title description content_type taken_at : Json) (w : World) : DbItem :=
  ⟨family_id, photo_id, object_key, w.now,
    if jsonTruthy title then some (pyStr title) else none,
    if jsonTruthy description then some (pyStr description) else none,
    if jsonTruthy content_type then some (pyStr content_type) else none,
    if jsonTruthy taken_at then some (pyStr taken_at) else none⟩

/- Concrete fixtures used to evaluate the model at specific inputs. -/

def wEmpty : World :=
  ⟨[], none, false, fun _ => "https://example.com/upload",
    fun _ => "https://example.com/download", "photo-1", "2024-01-01T00:00:00+00:00"⟩

def itemMittens : DbItem :=
  ⟨"family-123", "abc-123", "family-123/abc-123.jpg", "2024-01-01T00:00:00+00:00",
    some "Mittens", none, none, none⟩

def evRecordDup : Event :=
  ⟨"POST", none, "/photos", [("x-family-id", "family-123")], none, none, none,
    some "\x7b\"photoId\": \"abc-123\", \"objectKey\": \"family-123/abc-123.jpg\"\x7d", none⟩

def evPhotosNoAuth : Event :=
  ⟨"GET", none, "/photos", [], none, none, none, none, none⟩

def evUpperHeader : Event :=
  ⟨"GET", none, "/", [("X-FAMILY-ID", "fam-h")], some ["family_id=fam-c"],
    none, none, none, none⟩

def evContentNoAuth : Event :=
  ⟨"GET", none, "/photos/abc/content", [], none, none, none, none, none⟩

def evUploadUrlBad : Event :=
  ⟨"POST", none, "/photos/upload-url", [("x-family-id", "family-123")], none, none, none,
    some "\x7b invalid", none⟩

def evUploadUrlGood : Event :=
  ⟨"POST", none, "/photos/upload-url", [("x-family-id", "family-123")], none, none, none,
    some "\x7b\"contentType\": \"image/png\", \"title\": \"Snowball\"\x7d", none⟩

def evHealth : Event :=
  ⟨"GET", none, "/health", [], none, none, none, none, none⟩

def evFormPdf : Event :=
  ⟨"POST", none, "/photos/form-upload",
    [("content-type", "multipart/form-data; boundary=x")], none, none, none,
    some "RAW-MULTIPART-BODY",
    some ([("family_id", "family-123"), ("title", "Tax form")],
      [("photo", ⟨"scan.pdf", "application/pdf", [1, 2, 3]⟩)])⟩

theorem string_eq_of_data_eq {a b : String} (h : a.data = b.data) : a = b := by
  cases a; cases b; exact congrArg String.mk h

theorem strApp_ne_of_length {a b : String} (h : a.length ≠ b.length) : (a == b) = false := by
  refine beq_eq_false_iff_ne.mpr ?_
  intro hab
  exact h (congrArg String.length hab)

theorem length_slash : ("/" : String).length = 1 := rfl

theorem length_empty : ("" : String).length = 0 := rfl

theorem beq_empty_false_of_length (a : String) (h : 0 < a.length) : (a == "") = false := by
  apply strApp_ne_of_length
  rw [length_empty]
  omega

theorem slash_app_ne_empty (s : String) : (("/" ++ s : String) == "") = false := by
  apply beq_empty_false_of_length
  rw [String.length_append, length_slash]
  omega

theorem dictGet_dictSet_self (d : List (String × String)) (k v : String) :
    dictGet (dictSet d k v) k = some v := by
  induction d with
  | nil => simp [dictGet, dictSet]
  | cons kv rest ih =>
    by_cases h : kv.1 == k
    · simp [dictSet, h, dictGet]
    · simp [dictSet, h, dictGet, ih]

theorem head_dropWhile_slash (l : List Char) :
    ((l.dropWhile (fun c => c == '/')).head?) ≠ some '/' := by
  induction l with
  | nil => simp
  | cons c cs ih =>
    by_cases h : c == '/'
    · simpa [List.dropWhile, h] using ih
    · simp only [List.dropWhile, h]
      intro hcontra
      simp at hcontra
      subst hcontra
      simp at h

theorem pyRstripSlash_no_trailing (s : String) :
    (pyRstripSlash s).data.getLast? ≠ some '/' := by
  unfold pyRstripSlash
  rw [List.getLast?_reverse]
  exact head_dropWhile_slash s.data.reverse

theorem finalize_path_shape (q : String) :
    finalize_path q = "/" ∨ (finalize_path q).data.getLast? ≠ some '/' := by
  by_cases h : pyRstripSlash q == ""
  · left
    simp [finalize_path, h]
  · right
    simp only [finalize_path, h, Bool.false_eq_true, if_false]
    exact pyRstripSlash_no_trailing q

theorem strip_stage_exact (s : String) (hs1 : s ≠ "") (hs2 : s ≠ "$default") :
    strip_stage (some s) ("/" ++ s) = "/" := by
  have hbs1 : (s == "") = false := beq_eq_false_iff_ne.mpr hs1
  have hbs2 : (s == "$default") = false := beq_eq_false_iff_ne.mpr hs2
  simp [strip_stage, hbs1, hbs2]

theorem strip_stage_prefixed (s rest : String) (hs1 : s ≠ "") (hs2 : s ≠ "$default") :
    strip_stage (some s) ("/" ++ s ++ "/" ++ rest) =
      (if rest == "" then "/" else "/" ++ rest) := by
  have hbs1 : (s == "") = false := beq_eq_false_iff_ne.mpr hs1
  have hbs2 : (s == "$default") = false := beq_eq_false_iff_ne.mpr hs2
  have hne3 : (("/" ++ s ++ "/" ++ rest : String) == ("/" ++ s)) = false := by
    apply strApp_ne_of_length
    simp only [String.length_append, length_slash]
    omega
  have hdata : ("/" ++ s ++ "/" ++ rest : String).data =
      (("/" ++ s) ++ "/" : String).data ++ rest.data := by
    simp [String.data_append]
  have hpre : pyStartsWith ("/" ++ s ++ "/" ++ rest) (("/" ++ s) ++ "/") = true := by
    unfold pyStartsWith
    rw [ List.isPrefixOf_iff_prefix, hdata]
    exact List.prefix_append _ _
  have hdrop : pyDrop ("/" ++ s ++ "/" ++ rest) (("/" ++ s) ++ "/").length = rest := by
    apply string_eq_of_data_eq
    show (("/" ++ s ++ "/" ++ rest : String).data.drop
      ((("/" ++ s) ++ "/" : String).data).length) = rest.data
    rw [hdata]
    exact List.drop_left _ _
  simp only [strip_stage, hbs1, hbs2, Bool.not_false, Bool.and_self, if_true, hne3,
    Bool.false_eq_true, if_false, hpre, ite_true]
  rw [hdrop]

/-- Claim C7: with a non-default stage name `s`, the path
normalization in `handler` maps the exact path `/s` to `/`, strips the literal `/s` part
from any path beginning with `/s/` (normalizing exactly the suffix), and
strips trailing slashes (the result never ends in `/` unless it is `/`). -/
theorem c7_stage_path_normalization (s rest p : String)
    (hs1 : s ≠ "") (hs2 : s ≠ "$default") :
    normalize_path (some s) ("/" ++ s) = "/" ∧
    normalize_path (some s) ("/" ++ s ++ "/" ++ rest) = normalize_path none ("/" ++ rest) ∧
    (normalize_path (some s) p = "/" ∨
      (normalize_path (some s) p).data.getLast? ≠ some '/') := by
  refine ⟨?_, ?_, finalize_path_shape _⟩
  · unfold normalize_path
    rw [slash_app_ne_empty s]
    simp only [Bool.false_eq_true, if_false]
    rw [strip_stage_exact s hs1 hs2]
    decide
  · have e1 : (("/" ++ s ++ "/" ++ rest : String) == "") = false := by
      apply beq_empty_false_of_length
      simp only [String.length_append, length_slash]
      omega
    have e2 : (("/" ++ rest : String) == "") = false := slash_app_ne_empty rest
    unfold normalize_path
    rw [e1, e2]
    simp only [Bool.false_eq_true, if_false]
    rw [strip_stage_prefixed s rest hs1 hs2]
    show finalize_path (if rest == "" then "/" else "/" ++ rest) =
      finalize_path (strip_stage none ("/" ++ rest))
    by_cases hr : rest == ""
    · have hr' : rest = "" := beq_iff_eq.mp hr
      subst hr'
      decide
    · simp only [hr, Bool.false_eq_true, if_false]
      rfl

theorem c7_stage_path_normalization_witness :
    normalize_path (some "dev") "/dev" = "/" ∧
    normalize_path (some "dev") "/dev/session" = "/session" := by
  constructor
  · exact (c7_stage_path_normalization "dev" "session" "/dev" (by decide) (by decide)).1
  · have h := (c7_stage_path_normalization "dev" "session" "/dev/session" (by decide) (by decide)).2.1
    rw [show ("/" ++ "dev" ++ "/" ++ "session" : String) = "/dev/session" from by decide] at h
    rw [h]
    decide

/-- Claim C5 counterexample: calling the response builder with an explicit
`Content-Type` in the headers map while leaving the default of the builder
(`application/json`) in place yields `application/json`, not the supplied
value — the supplied header does NOT win over the default. -/
theorem c5_content_type_counterexample :
    dictGet (build_response 200 (RBody.json (Json.obj []))
      (some [("Content-Type", "text/plain")]) "application/json" none).headers
      "Content-Type" = some "application/json" ∧
    ("application/json" : String) ≠ "text/plain" := by
  constructor
  · rfl
  · decide

/-- Claim C5 as amended: the `content_type` parameter (whose default is
`application/json`), not the headers map, controls the final `Content-Type`:
whenever it is non-empty it overwrites any `Content-Type` supplied in the
explicit headers map. -/
theorem c5_content_type_parameter_wins (status_code : Nat) (body : RBody)
    (hs : List (String × String)) (content_type : String)
    (cookies : Option (List String)) (hct : content_type ≠ "") :
    dictGet (build_response status_code body (some hs) content_type cookies).headers
      "Content-Type" = some content_type := by
  have hb : (content_type == "") = false := beq_eq_false_iff_ne.mpr hct
  simp only [build_response, hb, Bool.false_eq_true, if_false]
  exact dictGet_dictSet_self _ _ _

theorem c5_content_type_parameter_wins_witness :
    dictGet (build_response 200 (RBody.json (Json.obj []))
      (some [("Content-Type", "text/css")]) "text/html; charset=utf-8" none).headers
      "Content-Type" = some "text/html; charset=utf-8" :=
  c5_content_type_parameter_wins 200 (RBody.json (Json.obj []))
    [("Content-Type", "text/css")] "text/html; charset=utf-8" none (by decide)

theorem nonemptyOpt_eq (o : Option String) :
    nonemptyOpt o = if optTruthy o then o else none := by
  cases o with
  | none => rfl
  | some s => by_cases h : s == "" <;> simp [nonemptyOpt, optTruthy, h]

theorem truthy_branch (o els : Option String) :
    (if optTruthy o then o else els) =
      (match nonemptyOpt o with
       | some v => some v
       | none => els) := by
  cases o with
  | none => rfl
  | some s => by_cases h : s == "" <;> simp [optTruthy, nonemptyOpt, h]

/-- Claim C3 counterexample: with the header supplied under the spelling
`X-FAMILY-ID` (case-insensitively "the header is present") and a cookie also
present, the resolver returns the cookie value, not the header value — the
header lookup is not case-insensitive, so the claimed precedence fails. -/
theorem c3_header_not_case_insensitive_counterexample :
    dictGet evUpperHeader.headers "X-FAMILY-ID" = some "fam-h" ∧
    family_id_from_event evUpperHeader none = some "fam-c" ∧
    (some "fam-c" : Option String) ≠ some "fam-h" := by
  refine ⟨rfl, rfl, by decide⟩

/-- Claim C3 as amended: the family identifier is resolved by trying, in
strict order, the header under exactly the two literal spellings
`x-family-id` and `X-Family-Id` (not case-insensitively), the `family_id`
cookie, the `family_id` query parameter, and then (when non-empty form fields
are supplied) the `family_id` form field, returning the first non-empty value.
`resolve_family_id_spec` is that ordered-extractor reading of the spec
sentence, and the implementation equals it on every event; in particular a
header given under one of the two spellings beats a cookie. -/
theorem c3_family_id_resolution_order (ev : Event)
    (form_fields : Option (List (String × String))) :
    family_id_from_event ev form_fields = resolve_family_id_spec ev form_fields := by
  unfold family_id_from_event resolve_family_id_spec
  rw [truthy_branch, truthy_branch, truthy_branch]
  cases h1 : nonemptyOpt (pyOrOpt (dictGet ev.headers "x-family-id")
      (dictGet ev.headers "X-Family-Id")) with
  | some v => rfl
  | none =>
    cases h2 : nonemptyOpt (dictGet (parse_cookies ev) "family_id") with
    | some v => rfl
    | none =>
      cases h3 : nonemptyOpt (dictGet (parse_query_string ev) "family_id") with
      | some v => rfl
      | none =>
        cases form_fields with
        | none => rfl
        | some ff =>
          by_cases hf : ff.isEmpty
          · simp [hf]
          · simp only [hf, Bool.not_false, Bool.true_and, Bool.false_eq_true, if_false]
            rw [nonemptyOpt_eq]

/-- Claim C1: a successful `persistMetadata` write makes every second call
with the same `(familyId, photoId)` pair fail with the conditional-write
conflict (`ConditionalCheckFailedException`) leaving the table unchanged —
no overwrite — and at the `POST /photos` boundary that conflict surfaces as
HTTP 409. -/
theorem c1_persist_insert_once (fid pid okey : String) (t1 d1 ct1 a1 : Json)
    (w : World) (res : String × String) (tbl : List DbItem)
    (h1 : persist_photo_metadata fid pid okey t1 d1 ct1 a1 w = (.ok res, tbl))
    (w2 : World) (ev : Event)
    (hw2 : w2.table = tbl) (hdf : w2.dynamoFail = none)
    (hb : extract_json_body ev =
      .ok (.obj [("photoId", .str pid), ("objectKey", .str okey)])) :
    (∀ t2 d2 ct2 a2, persist_photo_metadata fid pid okey t2 d2 ct2 a2 w2 =
      (.error "ConditionalCheckFailedException", tbl)) ∧
    record_photo_metadata fid ev w2 =
      .ok (build_response 409 (.json (.obj [("message", .str "Photo already recorded")]))
        none "application/json" none, tbl) := by
  have hkey : keyPresent tbl fid pid = true := by
    simp only [persist_photo_metadata, dynamo_put_if_absent] at h1
    cases hdf1 : w.dynamoFail with
    | some code => rw [hdf1] at h1; simp at h1
    | none =>
      rw [hdf1] at h1
      by_cases hk : keyPresent w.table fid pid
      · simp [hk] at h1
      · simp only [hk, Bool.false_eq_true, if_false] at h1
        injection h1 with ha hb'
        subst hb'
        simp [keyPresent, List.any_append]
  have hsecond : ∀ t2 d2 ct2 a2, persist_photo_metadata fid pid okey t2 d2 ct2 a2 w2 =
      (.error "ConditionalCheckFailedException", tbl) := by
    intro t2 d2 ct2 a2
    simp only [persist_photo_metadata, dynamo_put_if_absent, hdf, hw2, hkey, if_true]
  refine ⟨hsecond, ?_⟩
  have hrec := hsecond .null .null .null .null
  simp only [record_photo_metadata, hb]
  simp [jsonIssubset, jsonLookup, dictGet, pySubscript, pyGet, pyStr]
  rw [hrec]
  rfl

theorem c1_persist_insert_once_witness :
    persist_photo_metadata "family-123" "abc-123" "family-123/abc-123.jpg"
      Json.null Json.null Json.null Json.null (wEmpty.withTable [itemMittens]) =
      (.error "ConditionalCheckFailedException", [itemMittens]) ∧
    record_photo_metadata "family-123" evRecordDup (wEmpty.withTable [itemMittens]) =
      .ok (build_response 409 (.json (.obj [("message", .str "Photo already recorded")]))
        none "application/json" none, [itemMittens]) := by
  have h := c1_persist_insert_once "family-123" "abc-123" "family-123/abc-123.jpg"
    (Json.str "Mittens") Json.null Json.null Json.null wEmpty
    ("abc-123", "family-123/abc-123.jpg") [itemMittens] rfl
    (wEmpty.withTable [itemMittens]) evRecordDup rfl rfl rfl
  exact ⟨h.1 Json.null Json.null Json.null Json.null, h.2⟩

theorem mem_insertDescByPhotoId (x y : DbItem) (l : List DbItem) :
    y ∈ insertDescByPhotoId x l ↔ y = x ∨ y ∈ l := by
  induction l with
  | nil => simp [insertDescByPhotoId]
  | cons z zs ih =>
    by_cases h : z.photoId ≤ x.photoId
    · simp [insertDescByPhotoId, h]
    · simp [insertDescByPhotoId, h, ih]
      tauto

theorem mem_sortDescByPhotoId (x : DbItem) (l : List DbItem) :
    x ∈ sortDescByPhotoId l ↔ x ∈ l := by
  induction l with
  | nil => simp [sortDescByPhotoId]
  | cons z zs ih =>
    simp only [sortDescByPhotoId, List.foldr_cons] at ih ⊢
    rw [mem_insertDescByPhotoId, ih]
    simp

/-- Claim C4 counterexample: a record persisted with `takenAt` supplied and
the other optional fields absent is listed with `title`, `description` and
`contentType` PRESENT and bound to `null` (not absent), and with the supplied
`takenAt` missing from the listing altogether. -/
theorem c4_round_trip_counterexample :
    persist_photo_metadata "fam-1" "p1" "fam-1/p1.jpg"
      Json.null Json.null Json.null (Json.str "2024-05-05T10:00") wEmpty =
      (.ok ("p1", "fam-1/p1.jpg"),
        [⟨"fam-1", "p1", "fam-1/p1.jpg", "2024-01-01T00:00:00+00:00",
          none, none, none, some "2024-05-05T10:00"⟩]) ∧
    query_photos "fam-1" (wEmpty.withTable
      [⟨"fam-1", "p1", "fam-1/p1.jpg", "2024-01-01T00:00:00+00:00",
        none, none, none, some "2024-05-05T10:00"⟩]) =
      .ok [⟨"p1", "fam-1/p1.jpg", none, none, some "2024-01-01T00:00:00+00:00", none⟩] ∧
    jsonLookup (objFields (queryItemToJson
      ⟨"p1", "fam-1/p1.jpg", none, none, some "2024-01-01T00:00:00+00:00", none⟩))
      "description" = some Json.null ∧
    ((objFields (queryItemToJson
      ⟨"p1", "fam-1/p1.jpg", none, none, some "2024-01-01T00:00:00+00:00", none⟩)).any
      (fun kv => kv.1 == "takenAt")) = false := by
  refine ⟨rfl, rfl, rfl, rfl⟩

/-- Claim C4 as amended: storage really does omit unsupplied optional fields,
and `persistMetadata` followed by `listPhotos` for the same family returns the
written record — but the listing maps each record to a fixed six-key dict
(`photoId`, `objectKey`, `title`, `description`, `uploadedAt`, `contentType`):
supplied `title`/`description`/`contentType` values are present, unsupplied
ones appear as `null` rather than being absent, and a supplied `takenAt` is
never returned. -/
theorem c4_round_trip (fid pid okey : String) (title desc ct ta : Json) (w : World)
    (hdf : w.dynamoFail = none) (hk : keyPresent w.table fid pid = false) :
    persist_photo_metadata fid pid okey title desc ct ta w =
      (.ok (pid, okey), w.table ++ [persistedItem fid pid okey title desc ct ta w]) ∧
    (∃ items, query_photos fid (w.withTable
        (w.table ++ [persistedItem fid pid okey title desc ct ta w])) = .ok items ∧
      (⟨pid, okey,
        (persistedItem fid pid okey title desc ct ta w).title,
        (persistedItem fid pid okey title desc ct ta w).description,
        some w.now,
        (persistedItem fid pid okey title desc ct ta w).contentType⟩ : QueryItem) ∈ items) ∧
    (∀ it : QueryItem, (objFields (queryItemToJson it)).map Prod.fst =
      ["photoId", "objectKey", "title", "description", "uploadedAt", "contentType"]) ∧
    (∀ it : QueryItem, it.description = none →
      jsonLookup (objFields (queryItemToJson it)) "description" = some Json.null) := by
  have hpersist : persist_photo_metadata fid pid okey title desc ct ta w =
      (.ok (pid, okey), w.table ++ [persistedItem fid pid okey title desc ct ta w]) := by
    simp only [persist_photo_metadata, dynamo_put_if_absent, hdf, hk, Bool.false_eq_true,
      if_false]
    rfl
  refine ⟨hpersist, ?_, ?_, ?_⟩
  · refine ⟨(sortDescByPhotoId ((w.table ++
        [persistedItem fid pid okey title desc ct ta w]).filter
        (fun it => it.familyId == fid))).map
        (fun it => (⟨it.photoId, it.objectKey, it.title, it.description,
          it.uploadedAt, it.contentType⟩ : QueryItem)), ?_, ?_⟩
    · simp only [query_photos, World.withTable]
      rw [hdf]
    · have hmem : persistedItem fid pid okey title desc ct ta w ∈
          sortDescByPhotoId ((w.table ++
            [persistedItem fid pid okey title desc ct ta w]).filter
            (fun it => it.familyId == fid)) := by
        rw [mem_sortDescByPhotoId, List.mem_filter]
        refine ⟨by simp, ?_⟩
        simp [persistedItem]
      exact List.mem_map_of_mem _ hmem
  · intro it
    rfl
  · intro it hdesc
    simp [queryItemToJson, objFields, jsonLookup, dictGet, hdesc]

theorem c4_round_trip_witness :
    persist_photo_metadata "fam-1" "p1" "fam-1/p1.jpg"
      (Json.str "Cat") Json.null Json.null Json.null wEmpty =
      (.ok ("p1", "fam-1/p1.jpg"),
        [persistedItem "fam-1" "p1" "fam-1/p1.jpg" (Json.str "Cat")
          Json.null Json.null Json.null wEmpty]) ∧
    (⟨"p1", "fam-1/p1.jpg", some "Cat", none, some "2024-01-01T00:00:00+00:00", none⟩ :
      QueryItem) ∈ [(⟨"p1", "fam-1/p1.jpg", some "Cat", none,
        some "2024-01-01T00:00:00+00:00", none⟩ : QueryItem)] := by
  have h := c4_round_trip "fam-1" "p1" "fam-1/p1.jpg"
    (Json.str "Cat") Json.null Json.null Json.null wEmpty rfl rfl
  refine ⟨h.1, ?_⟩
  exact List.mem_singleton.mpr rfl

theorem hsts_bres_none (sc : Nat) (b : RBody) (ct : String) (ck : Option (List String)) :
    dictGet (build_response sc b none ct ck).headers "Strict-Transport-Security" =
      some HSTS_VALUE := by
  by_cases h : ct == "" <;> simp only [build_response, h] <;> rfl

theorem hsts_bres_loc (sc : Nat) (b : RBody) (url ct : String) (ck : Option (List String)) :
    dictGet (build_response sc b (some [("Location", url)]) ct ck).headers
      "Strict-Transport-Security" = some HSTS_VALUE := by
  by_cases h : ct == "" <;> simp only [build_response, h] <;> rfl

theorem hsts_bres_loc_cc (sc : Nat) (b : RBody) (url cc ct : String)
    (ck : Option (List String)) :
    dictGet (build_response sc b (some [("Location", url), ("Cache-Control", cc)]) ct ck).headers
      "Strict-Transport-Security" = some HSTS_VALUE := by
  by_cases h : ct == "" <;> simp only [build_response, h] <;> rfl

theorem hsts_handle_home (ev : Event) (w : World) :
    dictGet (handle_home ev w).headers "Strict-Transport-Security" = some HSTS_VALUE := by
  unfold handle_home
  exact hsts_bres_none _ _ _ _

theorem hsts_handle_session (allowed : List String) (ev : Event) :
    dictGet (handle_session allowed ev).headers "Strict-Transport-Security" =
      some HSTS_VALUE := by
  unfold handle_session
  dsimp only
  split
  · exact hsts_bres_none _ _ _ _
  · exact hsts_bres_loc _ _ _ _ _

theorem hsts_handle_logout (ev : Event) :
    dictGet (handle_logout ev).headers "Strict-Transport-Security" = some HSTS_VALUE := by
  unfold handle_logout
  exact hsts_bres_loc _ _ _ _ _

theorem hsts_handle_form_photo_upload (allowed : List String) (ev : Event) (w : World) :
    dictGet (handle_form_photo_upload allowed ev w).1.headers "Strict-Transport-Security" =
      some HSTS_VALUE := by
  unfold handle_form_photo_upload
  dsimp only
  repeat' split
  all_goals
    first
    | exact hsts_bres_none _ _ _ _
    | exact hsts_bres_loc _ _ _ _ _

theorem hsts_handle_photo_content (allowed : List String) (ev : Event) (path : String)
    (w : World) :
    dictGet (handle_photo_content allowed ev path w).headers "Strict-Transport-Security" =
      some HSTS_VALUE := by
  unfold handle_photo_content
  dsimp only
  repeat' split
  all_goals
    first
    | exact hsts_bres_none _ _ _ _
    | exact hsts_bres_loc _ _ _ _ _
    | exact hsts_bres_loc_cc _ _ _ _ _ _

theorem hsts_list_photos (fid : String) (w : World) :
    dictGet (list_photos fid w).headers "Strict-Transport-Security" = some HSTS_VALUE := by
  unfold list_photos
  split
  · exact hsts_bres_none _ _ _ _
  · exact hsts_bres_none _ _ _ _

theorem hsts_create_presigned_upload (fid : String) (ev : Event) (w : World) (r : Response)
    (h : create_presigned_upload fid ev w = .ok r) :
    dictGet r.headers "Strict-Transport-Security" = some HSTS_VALUE := by
  unfold create_presigned_upload at h
  repeat' split at h
  all_goals
    first
    | exact Except.noConfusion h
    | (injection h with h2; subst h2; exact hsts_bres_none _ _ _ _)

theorem hsts_record_photo_metadata (fid : String) (ev : Event) (w : World) (r : Response)
    (t : List DbItem) (h : record_photo_metadata fid ev w = .ok (r, t)) :
    dictGet r.headers "Strict-Transport-Security" = some HSTS_VALUE := by
  unfold record_photo_metadata at h
  repeat' split at h
  all_goals
    first
    | exact Except.noConfusion h
    | (injection h with h2; injection h2 with h21 h22; rw [← h21];
       exact hsts_bres_none _ _ _ _)

theorem hsts_authed_routes (fid method path : String) (ev : Event) (w : World)
    (r : Response) (t : List DbItem)
    (h : authed_routes fid method path ev w = .ok (r, t)) :
    dictGet r.headers "Strict-Transport-Security" = some HSTS_VALUE := by
  unfold authed_routes at h
  split at h
  · injection h with h2
    injection h2 with h21 h22
    rw [← h21]
    exact hsts_list_photos fid w
  · split at h
    · split at h
      · exact Except.noConfusion h
      · rename_i r0 heq
        injection h with h2
        injection h2 with h21 h22
        rw [← h21]
        exact hsts_create_presigned_upload fid ev w r0 heq
    · split at h
      · exact hsts_record_photo_metadata fid ev w r t h
      · injection h with h2
        injection h2 with h21 h22
        rw [← h21]
        exact hsts_bres_none _ _ _ _

/-- Claim C9: every response the handler produces — any route, any outcome —
carries the fixed `Strict-Transport-Security` header attached by
`_build_response`. -/
theorem c9_every_response_has_hsts (allowed : List String) (ev : Event) (w : World)
    (r : Response) (t : List DbItem) (h : handler allowed ev w = .ok (r, t)) :
    dictGet r.headers "Strict-Transport-Security" = some HSTS_VALUE := by
  unfold handler at h
  dsimp only at h
  split at h
  · injection h with h2
    injection h2 with h21 h22
    rw [← h21]
    exact hsts_handle_home ev w
  · split at h
    · injection h with h2
      injection h2 with h21 h22
      rw [← h21]
      exact hsts_handle_session allowed ev
    · split at h
      · injection h with h2
        injection h2 with h21 h22
        rw [← h21]
        exact hsts_handle_logout ev
      · split at h
        · injection h with h2
          rw [show r = (handle_form_photo_upload allowed ev w).1 from by rw [h2]]
          exact hsts_handle_form_photo_upload allowed ev w
        · split at h
          · injection h with h2
            injection h2 with h21 h22
            rw [← h21]
            exact hsts_handle_photo_content allowed ev _ w
          · split at h
            · injection h with h2
              injection h2 with h21 h22
              rw [← h21]
              exact hsts_bres_none _ _ _ _
            · split at h
              · injection h with h2
                injection h2 with h21 h22
                rw [← h21]
                exact hsts_bres_none _ _ _ _
              · exact hsts_authed_routes _ _ _ ev w r t h

theorem c9_every_response_has_hsts_witness :
    dictGet (build_response 200 (RBody.json (Json.obj [("status", Json.str "ok")]))
      none "application/json" none).headers "Strict-Transport-Security" =
      some HSTS_VALUE :=
  c9_every_response_has_hsts ["family-123"] evHealth wEmpty
    (build_response 200 (RBody.json (Json.obj [("status", Json.str "ok")]))
      none "application/json" none) wEmpty.table rfl

theorem statusCode_bres (sc : Nat) (b : RBody) (hs : Option (List (String × String)))
    (ct : String) (ck : Option (List String)) :
    (build_response sc b hs ct ck).statusCode = sc := rfl

theorem no403_list_photos (fid : String) (w : World) :
    (list_photos fid w).statusCode ≠ 403 := by
  unfold list_photos
  split
  · rw [statusCode_bres]; decide
  · rw [statusCode_bres]; decide

theorem no403_create_presigned_upload (fid : String) (ev : Event) (w : World)
    (r : Response) (h : create_presigned_upload fid ev w = .ok r) :
    r.statusCode ≠ 403 := by
  unfold create_presigned_upload at h
  repeat' split at h
  all_goals
    first
    | exact Except.noConfusion h
    | (injection h with h2; subst h2; rw [statusCode_bres]; decide)

theorem no403_record_photo_metadata (fid : String) (ev : Event) (w : World)
    (r : Response) (t : List DbItem) (h : record_photo_metadata fid ev w = .ok (r, t)) :
    r.statusCode ≠ 403 := by
  unfold record_photo_metadata at h
  repeat' split at h
  all_goals
    first
    | exact Except.noConfusion h
    | (injection h with h2; injection h2 with h21 h22; rw [← h21, statusCode_bres]; decide)

theorem no403_authed_routes (fid method path : String) (ev : Event) (w : World)
    (r : Response) (t : List DbItem)
    (h : authed_routes fid method path ev w = .ok (r, t)) :
    r.statusCode ≠ 403 := by
  unfold authed_routes at h
  split at h
  · injection h with h2
    injection h2 with h21 h22
    rw [← h21]
    exact no403_list_photos fid w
  · split at h
    · split at h
      · exact Except.noConfusion h
      · rename_i r0 heq
        injection h with h2
        injection h2 with h21 h22
        rw [← h21]
        exact no403_create_presigned_upload fid ev w r0 heq
    · split at h
      · exact no403_record_photo_metadata fid ev w r t h
      · injection h with h2
        injection h2 with h21 h22
        rw [← h21, statusCode_bres]
        decide

theorem handler_hard_route (allowed : List String) (ev : Event) (w : World)
    (hroute : hard_auth_route ev.method (normalize_path ev.stage ev.rawPath) = true) :
    handler allowed ev w =
      (match extract_family_id allowed ev none with
       | .error msg =>
         .ok (build_response 403 (RBody.json (Json.obj [("message", Json.str msg)]))
           none "application/json" none, w.table)
       | .ok family_id =>
         authed_routes family_id ev.method (normalize_path ev.stage ev.rawPath) ev w) := by
  unfold hard_auth_route at hroute
  simp only [Bool.or_eq_true, Bool.and_eq_true, beq_iff_eq] at hroute
  unfold handler
  dsimp only
  rcases hroute with ⟨hm, hp⟩ | ⟨hm, hp | hp⟩ <;> rw [hm, hp] <;> rfl

theorem family_id_from_event_ne_empty (ev : Event)
    (ff : Option (List (String × String))) :
    family_id_from_event ev ff ≠ some "" := by
  intro h
  unfold family_id_from_event at h
  dsimp only at h
  split at h
  · rename_i hcond
    rw [h] at hcond
    simp [optTruthy] at hcond
  · split at h
    · rename_i hcond
      rw [h] at hcond
      simp [optTruthy] at hcond
    · split at h
      · rename_i hcond
        rw [h] at hcond
        simp [optTruthy] at hcond
      · split at h
        · split at h
          · rename_i hcond
            rw [Bool.and_eq_true] at hcond
            rw [h] at hcond
            simp [optTruthy] at hcond
          · exact Option.noConfusion h
        · exact Option.noConfusion h

theorem validate_ok_of_mem (allowed : List String) (g : String) (hg : g ≠ "")
    (hmem : g ∈ allowed) : validate_family_id allowed (some g) = .ok g := by
  simp [validate_family_id, beq_eq_false_iff_ne.mpr hg, List.elem_eq_true_of_mem hmem]
  intro _
  exact hmem

theorem validate_ok_empty_list (g : String) (hg : g ≠ "") :
    validate_family_id [] (some g) = .ok g := by
  simp [validate_family_id, beq_eq_false_iff_ne.mpr hg]

theorem validate_err_not_mem (allowed : List String) (g : String) (hg : g ≠ "")
    (hA : allowed ≠ []) (hmem : g ∉ allowed) :
    validate_family_id allowed (some g) = .error "Family id not authorized" := by
  have h1 : allowed.isEmpty = false := by simpa [List.isEmpty_iff] using hA
  have h2 : allowed.contains g = false := by simpa using hmem
  simp [validate_family_id, beq_eq_false_iff_ne.mpr hg, h1, h2]
  exact hmem

/-- Claim C2: on the three hard-auth routes (GET /photos, POST
/photos/upload-url, POST /photos) the response status is 403 exactly when the
resolved family identifier is missing, or a non-empty allow-list is configured
and the identifier is not a member; with an empty allow-list every resolved
identifier is accepted and the route logic is reached. -/
theorem c2_hard_auth_403_iff (allowed : List String) (ev : Event) (w : World)
    (hroute : hard_auth_route ev.method (normalize_path ev.stage ev.rawPath) = true) :
    ((family_id_from_event ev none = none ∨
        (allowed ≠ [] ∧ ∀ g, family_id_from_event ev none = some g → g ∉ allowed)) →
      ∃ m, handler allowed ev w =
        .ok (build_response 403 (RBody.json (Json.obj [("message", Json.str m)]))
          none "application/json" none, w.table)) ∧
    (∀ r t, handler allowed ev w = .ok (r, t) →
      (r.statusCode = 403 ↔ (family_id_from_event ev none = none ∨
        (allowed ≠ [] ∧ ∀ g, family_id_from_event ev none = some g → g ∉ allowed)))) ∧
    (∀ g, family_id_from_event ev none = some g → allowed = [] →
      handler allowed ev w =
        authed_routes g ev.method (normalize_path ev.stage ev.rawPath) ev w) := by
  have hdisp := handler_hard_route allowed ev w hroute
  cases hres : family_id_from_event ev none with
  | none =>
    have hext : extract_family_id allowed ev none = .error "Missing family identifier" := by
      unfold extract_family_id
      rw [hres]
      rfl
    rw [hext] at hdisp
    refine ⟨?_, ?_, ?_⟩
    · intro _
      exact ⟨"Missing family identifier", hdisp⟩
    · intro r t h
      rw [hdisp] at h
      injection h with h2
      injection h2 with h21 h22
      constructor
      · intro _
        exact Or.inl rfl
      · intro _
        rw [← h21, statusCode_bres]
    · intro g hg _
      exact Option.noConfusion hg
  | some g =>
    have hgne : g ≠ "" := by
      intro hcontra
      rw [hcontra] at hres
      exact family_id_from_event_ne_empty ev none hres
    by_cases hA : allowed = []
    · subst hA
      have hext : extract_family_id [] ev none = .ok g := by
        unfold extract_family_id
        rw [hres]
        exact validate_ok_empty_list g hgne
      rw [hext] at hdisp
      refine ⟨?_, ?_, ?_⟩
      · intro hcond
        rcases hcond with hnone | ⟨hne, _⟩
        · exact Option.noConfusion hnone
        · exact absurd rfl hne
      · intro r t h
        rw [hdisp] at h
        constructor
        · intro hst
          exact absurd hst (no403_authed_routes g _ _ ev w r t h)
        · intro hcond
          rcases hcond with hnone | ⟨hne, _⟩
          · exact Option.noConfusion hnone
          · exact absurd rfl hne
      · intro g' hg' _
        injection hg' with h3
        rw [← h3]
        exact hdisp
    · by_cases hmem : g ∈ allowed
      · have hext : extract_family_id allowed ev none = .ok g := by
          unfold extract_family_id
          rw [hres]
          exact validate_ok_of_mem allowed g hgne hmem
        rw [hext] at hdisp
        refine ⟨?_, ?_, ?_⟩
        · intro hcond
          rcases hcond with hnone | ⟨_, hall⟩
          · exact Option.noConfusion hnone
          · exact absurd hmem (hall g rfl)
        · intro r t h
          rw [hdisp] at h
          constructor
          · intro hst
            exact absurd hst (no403_authed_routes g _ _ ev w r t h)
          · intro hcond
            rcases hcond with hnone | ⟨_, hall⟩
            · exact Option.noConfusion hnone
            · exact absurd hmem (hall g rfl)
        · intro g' hg' hA0
          exact absurd hA0 hA
      · have hext : extract_family_id allowed ev none =
            .error "Family id not authorized" := by
          unfold extract_family_id
          rw [hres]
          exact validate_err_not_mem allowed g hgne hA hmem
        rw [hext] at hdisp
        refine ⟨?_, ?_, ?_⟩
        · intro _
          exact ⟨"Family id not authorized", hdisp⟩
        · intro r t h
          rw [hdisp] at h
          injection h with h2
          injection h2 with h21 h22
          constructor
          · intro _
            refine Or.inr ⟨hA, ?_⟩
            intro g' hg'
            injection hg' with h3
            rw [← h3]
            exact hmem
          · intro _
            rw [← h21, statusCode_bres]
        · intro g' hg' hA0
          exact absurd hA0 hA

theorem c2_hard_auth_403_iff_witness :
    handler [] evUploadUrlGood wEmpty =
      authed_routes "family-123" "POST" "/photos/upload-url" evUploadUrlGood wEmpty :=
  (c2_hard_auth_403_iff [] evUploadUrlGood wEmpty rfl).2.2 "family-123" rfl rfl

/-- Claim C6 counterexample: a `GET /photos/{id}/content` request with a
missing family identifier is answered with a 302 redirect to `/`, not the
claimed 403. -/
theorem c6_content_not_403_counterexample :
    handler ["family-123"] evContentNoAuth wEmpty =
      .ok (build_response 302 (RBody.text "") (some [("Location", "/")])
        "text/plain" none, []) ∧
    (build_response 302 (RBody.text "") (some [("Location", "/")])
      "text/plain" none).statusCode = 302 ∧
    (302 : Nat) ≠ 403 := by
  refine ⟨rfl, rfl, by decide⟩

/-- Claim C6 as amended: a missing or allow-list-rejected family identifier
yields 403 on the three hard-auth routes, on POST /photos/form-upload, and on
POST /session — but GET /photos/{id}/content instead redirects with 302 and
`Location: /` (the home page). -/
theorem c6_unauthorized_responses (allowed : List String) (ev : Event) (w : World)
    (path msg : String) :
    (extract_family_id allowed ev none = .error msg →
      3 ≤ ((pySplitChar path '/').filter (fun s => !(s == ""))).length →
      handle_photo_content allowed ev path w =
        build_response 302 (RBody.text "") (some [("Location", "/")]) "text/plain" none) ∧
    (extract_family_id allowed ev (some (parse_form_data ev).1) = .error msg →
      (handle_form_photo_upload allowed ev w).1.statusCode = 403 ∧
      (handle_form_photo_upload allowed ev w).2 = w.table) ∧
    (validate_family_id allowed
        (some (pyStrip ((dictGet (parse_form_data ev).1 "family_id").getD ""))) =
        .error msg →
      (handle_session allowed ev).statusCode = 403) ∧
    (hard_auth_route ev.method (normalize_path ev.stage ev.rawPath) = true →
      extract_family_id allowed ev none = .error msg →
      handler allowed ev w =
        .ok (build_response 403 (RBody.json (Json.obj [("message", Json.str msg)]))
          none "application/json" none, w.table)) := by
  refine ⟨?_, ?_, ?_, ?_⟩
  · intro hext hlen
    unfold handle_photo_content
    dsimp only
    rw [hext, if_neg (by omega)]
  · intro hext
    unfold handle_form_photo_upload
    dsimp only
    rw [hext]
    exact ⟨rfl, rfl⟩
  · intro hval
    unfold handle_session
    dsimp only
    rw [hval]
    rfl
  · intro hroute hext
    have hdisp := handler_hard_route allowed ev w hroute
    rw [hext] at hdisp
    exact hdisp

theorem c6_unauthorized_responses_witness :
    handle_photo_content ["family-123"] evContentNoAuth "/photos/abc/content" wEmpty =
      build_response 302 (RBody.text "") (some [("Location", "/")]) "text/plain" none :=
  (c6_unauthorized_responses ["family-123"] evContentNoAuth wEmpty
    "/photos/abc/content" "Missing family identifier").1 rfl (by decide)

/-- Claim C8 counterexample: an authenticated `POST /photos/upload-url`
request whose body is not valid JSON is answered with 400, not 201. -/
theorem c8_upload_url_counterexample :
    handler ["family-123"] evUploadUrlBad wEmpty =
      .ok (build_response 400 (RBody.json (Json.obj [("message", Json.str "Invalid JSON body")]))
        none "application/json" none, []) ∧
    (build_response 400 (RBody.json (Json.obj [("message", Json.str "Invalid JSON body")]))
      none "application/json" none).statusCode = 400 ∧
    (400 : Nat) ≠ 201 := by
  refine ⟨rfl, rfl, by decide⟩

/-- Claim C8 as amended: for every authenticated `POST /photos/upload-url`
request whose body decodes to a JSON object and whose extension derivation
and presigned-URL issuance succeed, the response is 201 with a fresh
`photoId`, an `objectKey` of the form `familyId/photoId{extension}` (known
image MIME types only; unknown or absent content types get no extension
suffix, the content type defaulting to `image/jpeg` only when the key is
absent), the echoed `contentType` and `title`, the presigned upload URL and
the 15-minute expiry; the metadata table is untouched. -/
theorem c8_upload_url_success (allowed : List String) (ev : Event) (w : World)
    (kvs : List (String × Json)) (fid ext : String)
    (hm : ev.method = "POST")
    (hp : normalize_path ev.stage ev.rawPath = "/photos/upload-url")
    (hauth : extract_family_id allowed ev none = .ok fid)
    (hb : extract_json_body ev = .ok (.obj kvs))
    (hext : content_type_to_extension_py
      ((jsonLookup kvs "contentType").getD (.str "image/jpeg")) = .ok ext)
    (hs3 : w.s3Fail = false) :
    handler allowed ev w = .ok (build_response 201 (RBody.json (Json.obj [
      ("photoId", Json.str w.freshUuid),
      ("objectKey", Json.str (fid ++ "/" ++ w.freshUuid ++ ext)),
      ("uploadUrl", Json.str (w.presignPut (fid ++ "/" ++ w.freshUuid ++ ext))),
      ("title", (jsonLookup kvs "title").getD Json.null),
      ("contentType", (jsonLookup kvs "contentType").getD (Json.str "image/jpeg")),
      ("expiresInSeconds", Json.num (UPLOAD_URL_TTL_SECONDS : Int))]))
      none "application/json" none, w.table) := by
  have hroute : hard_auth_route ev.method (normalize_path ev.stage ev.rawPath) = true := by
    rw [hm, hp]
    rfl
  have hcre : create_presigned_upload fid ev w = .ok (build_response 201 (RBody.json (Json.obj [
      ("photoId", Json.str w.freshUuid),
      ("objectKey", Json.str (fid ++ "/" ++ w.freshUuid ++ ext)),
      ("uploadUrl", Json.str (w.presignPut (fid ++ "/" ++ w.freshUuid ++ ext))),
      ("title", (jsonLookup kvs "title").getD Json.null),
      ("contentType", (jsonLookup kvs "contentType").getD (Json.str "image/jpeg")),
      ("expiresInSeconds", Json.num (UPLOAD_URL_TTL_SECONDS : Int))]))
      none "application/json" none) := by
    unfold create_presigned_upload
    rw [hb]
    dsimp only [pyGetD, pyGet]
    rw [hext]
    dsimp only
    rw [hs3]
    rfl
  have hdisp := handler_hard_route allowed ev w hroute
  rw [hauth] at hdisp
  rw [hdisp, hm, hp]
  show (match create_presigned_upload fid ev w with
        | Except.error e => Except.error e
        | Except.ok r => Except.ok (r, w.table)) =
    Except.ok (build_response 201 (RBody.json (Json.obj [
      ("photoId", Json.str w.freshUuid),
      ("objectKey", Json.str (fid ++ "/" ++ w.freshUuid ++ ext)),
      ("uploadUrl", Json.str (w.presignPut (fid ++ "/" ++ w.freshUuid ++ ext))),
      ("title", (jsonLookup kvs "title").getD Json.null),
      ("contentType", (jsonLookup kvs "contentType").getD (Json.str "image/jpeg")),
      ("expiresInSeconds", Json.num (UPLOAD_URL_TTL_SECONDS : Int))]))
      none "application/json" none, w.table)
  rw [hcre]

theorem c8_upload_url_success_witness :
    handler ["family-123"] evUploadUrlGood wEmpty =
      .ok (build_response 201 (RBody.json (Json.obj [
        ("photoId", Json.str "photo-1"),
        ("objectKey", Json.str "family-123/photo-1.png"),
        ("uploadUrl", Json.str "https://example.com/upload"),
        ("title", Json.str "Snowball"),
        ("contentType", Json.str "image/png"),
        ("expiresInSeconds", Json.num 900)]))
        none "application/json" none, []) :=
  c8_upload_url_success ["family-123"] evUploadUrlGood wEmpty
    [("contentType", Json.str "image/png"), ("title", Json.str "Snowball")]
    "family-123" ".png" rfl rfl rfl rfl rfl rfl

theorem optNonempty_ne (s x : String) (h : optNonempty s = some x) : x ≠ "" := by
  unfold optNonempty at h
  by_cases hs : s == ""
  · rw [if_pos hs] at h
    exact Option.noConfusion h
  · rw [if_neg hs] at h
    injection h with h2
    rw [← h2]
    simpa using hs

theorem persist_opt_field (o : Option String) (ho : ∀ x, o = some x → x ≠ "") :
    (if jsonTruthy (optJsonStr o) then some (pyStr (optJsonStr o)) else none) = o := by
  cases o with
  | none => rfl
  | some s =>
    have hs : s ≠ "" := ho s rfl
    simp [optJsonStr, jsonTruthy, pyStr, beq_eq_false_iff_ne.mpr hs]

/-- Claim C10 counterexample: a multipart upload whose file part carries the
unrecognized content type `application/pdf` is stored with contentType
`application/pdf` — not the claimed `image/jpeg` default — even though the
object-key extension does fall back to `.jpg`. -/
theorem c10_form_upload_counterexample :
    (handle_form_photo_upload ["family-123"] evFormPdf wEmpty).2 =
      [⟨"family-123", "photo-1", "family-123/photo-1.jpg",
        "2024-01-01T00:00:00+00:00", some "Tax form", none,
        some "application/pdf", none⟩] ∧
    (some "application/pdf" : Option String) ≠ some "image/jpeg" := by
  refine ⟨rfl, by decide⟩

/-- Claim C10 as amended: in the form-upload handler, only a missing (empty)
file-part content type defaults the stored content type to `image/jpeg`; an
unrecognized non-empty content type is stored as supplied.  In both cases the
object-key extension falls back to `.jpg` (via the `image/jpeg` fallback),
and the upload responds 303 after persisting the record. -/
theorem c10_form_upload_content_type (allowed : List String) (ev : Event) (w : World)
    (fields : List (String × String)) (files : List (String × FilePart))
    (fp : FilePart) (fid : String)
    (hpf : parse_form_data ev = (fields, files))
    (hfile : dictGet files "photo" = some fp)
    (hdata : fp.data ≠ [])
    (hauth : extract_family_id allowed ev (some fields) = .ok fid)
    (hs3 : w.s3Fail = false)
    (hdf : w.dynamoFail = none)
    (hfresh : keyPresent w.table fid w.freshUuid = false) :
    (handle_form_photo_upload allowed ev w).1.statusCode = 303 ∧
    (handle_form_photo_upload allowed ev w).2 = w.table ++
      [⟨fid, w.freshUuid,
        fid ++ "/" ++ w.freshUuid ++
          (if content_type_to_extension
              (if fp.content_type == "" then "image/jpeg" else fp.content_type) == ""
           then ".jpg"
           else content_type_to_extension
              (if fp.content_type == "" then "image/jpeg" else fp.content_type)),
        w.now,
        optNonempty (pyStrip ((dictGet fields "title").getD "")),
        optNonempty (pyStrip ((dictGet fields "description").getD "")),
        some (if fp.content_type == "" then "image/jpeg" else fp.content_type),
        optNonempty (pyStrip ((dictGet fields "taken_at").getD ""))⟩] := by
  have hde : fp.data.isEmpty = false := by
    simpa [List.isEmpty_iff] using hdata
  have hctne : (if fp.content_type == "" then "image/jpeg" else fp.content_type) ≠ "" := by
    by_cases h : fp.content_type == ""
    · simp [h]
    · simp only [h, Bool.false_eq_true, if_false]
      simpa using h
  have hcttruthy : jsonTruthy (Json.str
      (if fp.content_type == "" then "image/jpeg" else fp.content_type)) = true := by
    show (!((if fp.content_type == "" then "image/jpeg" else fp.content_type) == "")) = true
    rw [beq_eq_false_iff_ne.mpr hctne]
    rfl
  have hpersist : persist_photo_metadata fid w.freshUuid
      (fid ++ "/" ++ w.freshUuid ++
        (if content_type_to_extension
            (if fp.content_type == "" then "image/jpeg" else fp.content_type) == ""
         then ".jpg"
         else content_type_to_extension
            (if fp.content_type == "" then "image/jpeg" else fp.content_type)))
      (optJsonStr (optNonempty (pyStrip ((dictGet fields "title").getD ""))))
      (optJsonStr (optNonempty (pyStrip ((dictGet fields "description").getD ""))))
      (Json.str (if fp.content_type == "" then "image/jpeg" else fp.content_type))
      (optJsonStr (optNonempty (pyStrip ((dictGet fields "taken_at").getD "")))) w =
      (.ok (w.freshUuid,
        fid ++ "/" ++ w.freshUuid ++
          (if content_type_to_extension
              (if fp.content_type == "" then "image/jpeg" else fp.content_type) == ""
           then ".jpg"
           else content_type_to_extension
              (if fp.content_type == "" then "image/jpeg" else fp.content_type))),
       w.table ++ [⟨fid, w.freshUuid,
        fid ++ "/" ++ w.freshUuid ++
          (if content_type_to_extension
              (if fp.content_type == "" then "image/jpeg" else fp.content_type) == ""
           then ".jpg"
           else content_type_to_extension
              (if fp.content_type == "" then "image/jpeg" else fp.content_type)),
        w.now,
        optNonempty (pyStrip ((dictGet fields "title").getD "")),
        optNonempty (pyStrip ((dictGet fields "description").getD "")),
        some (if fp.content_type == "" then "image/jpeg" else fp.content_type),
        optNonempty (pyStrip ((dictGet fields "taken_at").getD ""))⟩]) := by
    simp only [persist_photo_metadata, dynamo_put_if_absent, hdf, hfresh,
      Bool.false_eq_true, if_false]
    rw [persist_opt_field _ (optNonempty_ne _),
      persist_opt_field _ (optNonempty_ne _),
      persist_opt_field _ (optNonempty_ne _), hcttruthy]
    rfl
  have hmain : handle_form_photo_upload allowed ev w =
      (build_response 303 (RBody.text "") (some [("Location", "/?status=uploaded")])
        "text/plain" none,
       w.table ++ [⟨fid, w.freshUuid,
        fid ++ "/" ++ w.freshUuid ++
          (if content_type_to_extension
              (if fp.content_type == "" then "image/jpeg" else fp.content_type) == ""
           then ".jpg"
           else content_type_to_extension
              (if fp.content_type == "" then "image/jpeg" else fp.content_type)),
        w.now,
        optNonempty (pyStrip ((dictGet fields "title").getD "")),
        optNonempty (pyStrip ((dictGet fields "description").getD "")),
        some (if fp.content_type == "" then "image/jpeg" else fp.content_type),
        optNonempty (pyStrip ((dictGet fields "taken_at").getD ""))⟩]) := by
    unfold handle_form_photo_upload
    rw [hpf]
    dsimp only
    rw [hauth]
    try dsimp only
    rw [hfile]
    try dsimp only
    rw [hde]
    try dsimp only
    rw [hs3]
    try dsimp only
    simp only [show content_type_to_extension "image/jpeg" = ".jpg" from rfl,
      show ((".jpg" : String) == "") = false from rfl, Bool.false_eq_true, if_false]
    rw [hpersist]
  rw [hmain]
  exact ⟨rfl, rfl⟩

theorem c10_form_upload_content_type_witness :
    (handle_form_photo_upload ["family-123"] evFormPdf wEmpty).1.statusCode = 303 ∧
    (handle_form_photo_upload ["family-123"] evFormPdf wEmpty).2 =
      [] ++ [⟨"family-123", "photo-1",
        "family-123" ++ "/" ++ "photo-1" ++
          (if content_type_to_extension
              (if ("application/pdf" : String) == "" then "image/jpeg" else "application/pdf") == ""
           then ".jpg"
           else content_type_to_extension
              (if ("application/pdf" : String) == "" then "image/jpeg" else "application/pdf")),
        "2024-01-01T00:00:00+00:00",
        optNonempty (pyStrip ((dictGet [("family_id", "family-123"), ("title", "Tax form")] "title").getD "")),
        optNonempty (pyStrip ((dictGet [("family_id", "family-123"), ("title", "Tax form")] "description").getD "")),
        some (if ("application/pdf" : String) == "" then "image/jpeg" else "application/pdf"),
        optNonempty (pyStrip ((dictGet [("family_id", "family-123"), ("title", "Tax form")] "taken_at").getD ""))⟩] :=
  c10_form_upload_content_type ["family-123"] evFormPdf wEmpty
    [("family_id", "family-123"), ("title", "Tax form")]
    [("photo", ⟨"scan.pdf", "application/pdf", [1, 2, 3]⟩)]
    ⟨"scan.pdf", "application/pdf", [1, 2, 3]⟩ "family-123"
    rfl rfl (by decide) rfl rfl rfl rfl
